import Mathlib

/-!
Verification of the DTEK-bot Telegram notification core: a shallow embedding of
the reconciliation engine, registration engine, command processor
(`src/index.mjs`) and the persisted chat-map storage layer
(`src/src/storage/messageMapIO.mjs`), with theorems settling the spec claims.
-/

namespace DtekBot

/-! ## String helpers (JS `startsWith` / `endsWith` / `includes` semantics) -/

/-- Prefix test on character lists. -/
def listPref : List Char → List Char → Bool
  | [], _ => true
  | _ :: _, [] => false
  | a :: as, b :: bs => a == b && listPref as bs

/-- Containment of `needle` in a character list (JS `String.prototype.includes`). -/
def listContainsSub (needle : List Char) : List Char → Bool
  | [] => listPref needle []
  | c :: rest => listPref needle (c :: rest) || listContainsSub needle rest

/-- JS `hay.includes(needle)`. -/
def strContains (hay needle : String) : Bool :=
  listContainsSub needle.toList hay.toList

/-- JS `s.startsWith(p)`. -/
def strStarts (s p : String) : Bool := listPref p.toList s.toList

/-- JS `s.endsWith(p)`. -/
def strEnds (s p : String) : Bool := listPref p.toList.reverse s.toList.reverse

/-- JS `s.toLowerCase()` (ASCII range, which is all the code compares). -/
def strLower (s : String) : String := String.mk (s.toList.map Char.toLower)

/-- JS `s.trim()`. -/
def jsTrim (s : String) : String :=
  String.mk (((s.toList.dropWhile Char.isWhitespace).reverse.dropWhile Char.isWhitespace).reverse)

/-- JS truthiness of a possibly-absent number (`undefined` and `0` are falsy). -/
def idTruthy : Option Int → Bool
  | some n => n != 0
  | none => false

/-- `typeof d === 'string' && d.toLowerCase().includes('not a member')`. -/
def hasNotAMember : Option String → Bool
  | some s => strContains (strLower s) "not a member"
  | none => false

/-- `typeof d === 'string' && d.includes(needle)`. -/
def descContains (d : Option String) (needle : String) : Bool :=
  match d with
  | some s => strContains s needle
  | none => false

/-! ## Configuration constants (`src/src/config/constants.mjs`) -/

def OUTAGE_IMAGES_BASE : String :=
  "https://raw.githubusercontent.com/Baskerville42/outage-data-ua/refs/heads/main/images/"

def DEFAULT_CAPTION : String :=
  "⚡️ Графік стабілізаційних вимкнень. Це повідомлення оновлюється щогодини автоматично."

/-- `withTimestamp` from `src/src/utils/time.mjs`, with the formatted local time
as an explicit parameter (it is wall-clock input). -/
def withTimestamp (caption ts : String) : String :=
  if caption ≠ "" then caption ++ "\nОновлено: " ++ ts else "Оновлено: " ++ ts

/-! ## Telegram gateway responses

A gateway call either throws (modelled as `none`) or yields a parsed JSON body
with `ok`, `error_code`, `description` and the message id(s) of `result`. -/

structure TgJson where
  ok : Bool
  error_code : Option Int := none
  description : Option String := none
  result_ids : List Int := []
deriving DecidableEq

/-- One `editMessageMedia` request issued by `editAlbum`. -/
structure EditCall where
  message_id : Int
  media : String
  caption : String
deriving DecidableEq

/-- Result of one send/edit helper, with its observable side effects
(messages deleted and pinned, chat removal) recorded. -/
structure StepResult where
  ok : Bool
  reason : Option String := none
  message_id : Option Int := none
  message_ids : Option (List Int) := none
  replaced : Bool := false
  not_modified : Bool := false
  removed : Bool := false
  deletes : List Int := []
  pins : List (Option Int) := []
  item_results : List Bool := []
  calls : List EditCall := []
deriving DecidableEq

/-- `sendPhoto` (src/index.mjs:77-118): error classification and effects,
given the gateway response. -/
def sendPhotoM (rsp : Option TgJson) : StepResult :=
  match rsp with
  | none => { ok := false }
  | some j =>
    if j.ok = false then
      if j.error_code == some 403 && hasNotAMember j.description then
        { ok := true, reason := some "unregistered", removed := true }
      else if j.error_code == some 400 && descContains j.description "TOPIC_CLOSED" then
        { ok := true, reason := some "topic-closed" }
      else { ok := false }
    else
      let mid := j.result_ids.head?
      { ok := true, message_id := mid, pins := [mid] }

/-- `editPhoto` (src/index.mjs:120-175): classification of the edit response;
the generic 400 branch deletes the old message and falls through to
`sendPhoto` with the `recovery` response, flagging the result `replaced`. -/
def editPhotoM (rsp : Option TgJson) (recovery : Option TgJson) (messageId : Int) : StepResult :=
  match rsp with
  | none => { ok := false }
  | some j =>
    if j.ok = false then
      if j.error_code == some 400 && descContains j.description "message is not modified" then
        { ok := true, not_modified := true, pins := [some messageId] }
      else if j.error_code == some 400 && descContains j.description "TOPIC_CLOSED" then
        { ok := true, reason := some "topic-closed" }
      else if j.error_code == some 400 then
        let sent := sendPhotoM recovery
        { sent with replaced := true, deletes := messageId :: sent.deletes }
      else if j.error_code == some 403 && hasNotAMember j.description then
        { ok := true, reason := some "unregistered", removed := true }
      else { ok := false }
    else
      { ok := true, pins := [some messageId] }

/-- `sendAlbum` (src/index.mjs:177-211): any `error_code === 403` on the
media-group response triggers chat removal; success records the returned
message ids and pins the first one. -/
def sendAlbumM (rsp : Option TgJson) : StepResult :=
  match rsp with
  | none => { ok := false }
  | some j =>
    if j.ok = false then
      if j.error_code == some 403 then
        { ok := true, reason := some "unregistered", removed := true }
      else { ok := false }
    else
      { ok := true, message_ids := some j.result_ids,
        pins := match j.result_ids with | [] => [] | m :: _ => [some m] }

/-- The per-item loop of `editAlbum` (src/index.mjs:229-270): one
`editMessageMedia` call per `(stored id, image)` pair, caption only on the
first; a "message is not modified" item is silently accepted, any other
failure is pushed to the collected results. -/
def editAlbumItems (cb : String → String) (cap : String) (itemRsp : Nat → Option TgJson) :
    Nat → List (Int × String) → List EditCall × List Bool
  | _, [] => ([], [])
  | i, (msgId, imgUrl) :: rest =>
    let call : EditCall := { message_id := msgId, media := cb imgUrl, caption := if i = 0 then cap else "" }
    let cur : List Bool :=
      match itemRsp i with
      | none => [false]
      | some j =>
        if j.ok = false then
          if j.error_code == some 400 && descContains j.description "message is not modified" then []
          else [false]
        else [true]
    let rest' := editAlbumItems cb cap itemRsp (i + 1) rest
    (call :: rest'.1, cur ++ rest'.2)

/-- `editAlbum` (src/index.mjs:213-281). -/
def editAlbumM (cb : String → String) (images : List String) (cap : String)
    (existing : List Int) (itemRsp : Nat → Option TgJson) : StepResult :=
  if images.length ≠ existing.length then
    { ok := false, reason := some "size-mismatch" }
  else
    let pr := editAlbumItems cb cap itemRsp 0 (existing.zip images)
    { ok := true, calls := pr.1, item_results := pr.2,
      pins := match existing with | [] => [] | m :: _ => [some m] }

/-! ## The in-memory chat map (`messageMap` in src/index.mjs) -/

/-- A chat's `image_url` value: the JS field is either a string or an array of
strings (`Array.isArray` distinguishes them). -/
inductive ImgVal where
  | one (url : String)
  | many (urls : List String)
deriving DecidableEq

/-- JS truthiness of an `image_url` value (an array is always truthy, a string
is truthy iff nonempty). -/
def ImgVal.truthy : ImgVal → Bool
  | .one s => s != ""
  | .many _ => true

/-- `Array.isArray(x) && x.length > 1` (src/index.mjs:484). -/
def ImgVal.isAlbum : ImgVal → Bool
  | .one _ => false
  | .many l => l.length > 1

/-- `Array.isArray(x) ? x : [x]` (src/index.mjs:178 and 220). -/
def ImgVal.list : ImgVal → List String
  | .one s => [s]
  | .many l => l

/-- One record of the chat map. -/
structure Entry where
  message_id : Option Int := none
  message_ids : Option (List Int) := none
  image_url : Option ImgVal := none
  caption : Option String := none
  welcome_message_id : Option Int := none
  message_thread_id : Option Int := none
deriving DecidableEq

abbrev MMap := List (String × Entry)

/-- `obj[key]` (property lookup in a JS object; keys are unique). -/
def mapFind {α : Type} : List (String × α) → String → Option α
  | [], _ => none
  | (k, v) :: rest, key => if key = k then some v else mapFind rest key

/-- `obj[key] = v` (assignment keeps the key position, appends if new). -/
def mapSet {α : Type} : List (String × α) → String → α → List (String × α)
  | [], key, v => [(key, v)]
  | (k, w) :: rest, key, v => if key = k then (k, v) :: rest else (k, w) :: mapSet rest key v

/-- `delete obj[key]`. -/
def mapErase {α : Type} : List (String × α) → String → List (String × α)
  | [], _ => []
  | (k, w) :: rest, key => if key = k then rest else (k, w) :: mapErase rest key

/-- `setMessageId` (src/index.mjs:420-430), acting on the chat's entry and the
dirty flag. -/
def setMessageId (e : Entry) (dirty : Bool) (mid : Int) : Entry × Bool :=
  if mid = 0 then (e, dirty)
  else
    let e1 := { e with message_ids := none }
    if e1.message_id = some mid then (e1, dirty)
    else ({ e1 with message_id := some mid }, true)

/-- `setMessageIds` (src/index.mjs:432-444): the stored single id is deleted
only when truthy, and `message_ids` is rewritten only when it differs
elementwise from the new list. -/
def setMessageIds (e : Entry) (dirty : Bool) (mids : List Int) : Entry × Bool :=
  let e1 := if idTruthy e.message_id then { e with message_id := none } else e
  let current := e1.message_ids.getD []
  if current = mids then (e1, dirty)
  else ({ e1 with message_ids := some mids }, true)

/-- `updateStoredChatFields` (src/index.mjs:391-397) on the chat's entry
(the caption guard reads the entry's caption, which the image write leaves
untouched). -/
def updateStoredChatFields (e : Entry) (effImg : Option ImgVal) (effCap : String)
    (dirty : Bool) : Entry × Bool :=
  let c1 := (match effImg with | some v => v.truthy | none => false) && decide (e.image_url ≠ effImg)
  let c2 := effCap != "" && decide (e.caption ≠ some effCap)
  let e1 := if c1 then { e with image_url := effImg } else e
  let e2 := if c2 then { e1 with caption := some effCap } else e1
  (e2, dirty || c1 || c2)

/-! ## The reconciliation loop body (src/index.mjs:457-578) -/

/-- The gateway responses one chat's reconciliation step may consume. -/
structure Gateway where
  send : Option TgJson := none
  edit : Option TgJson := none
  recovery : Option TgJson := none
  albumItem : Nat → Option TgJson := fun _ => none

/-- Outcome of one chat's reconciliation: the post-state of its record
(`none` when the chat was unregistered and deleted), the dirty flag, the
pushed result and the transition-case deletions performed by the loop. -/
structure ChatStep where
  entry : Option Entry
  dirty : Bool
  res : StepResult
  deletes : List Int
deriving DecidableEq

/-- The transition-case deletions of the reconciliation loop (Cases 1-3,
src/index.mjs:489-507), in execution order. -/
def transDeletes (e : Entry) (img : ImgVal) : List Int :=
  let d1 : List Int := if img.isAlbum && idTruthy e.message_id then [e.message_id.getD 0] else []
  let d2 : List Int := if !img.isAlbum && e.message_ids.isSome then e.message_ids.getD [] else []
  let d3 : List Int :=
    if img.isAlbum && e.message_ids.isSome
        && ((e.message_ids.getD []).length != img.list.length) then e.message_ids.getD []
    else []
  d1 ++ d2 ++ d3

/-- The base `mode` assignment (src/index.mjs:516-536): `true` means edit. -/
def baseEditB (e : Entry) (img : ImgVal) : Bool :=
  if img.isAlbum then
    e.message_ids.isSome && ((e.message_ids.getD []).length == img.list.length)
  else
    idTruthy e.message_id

/-- The three sequential send overrides (src/index.mjs:539-541). -/
def forceSendB (e : Entry) (img : ImgVal) : Bool :=
  (img.isAlbum && idTruthy e.message_id) || (!img.isAlbum && e.message_ids.isSome)
    || (img.isAlbum && e.message_ids.isSome
        && ((e.message_ids.getD []).length != img.list.length))

/-- The final mode after the overrides: `true` means edit. -/
def isEditB (e : Entry) (img : ImgVal) : Bool :=
  baseEditB e img && !forceSendB e img

/-- The loop body of the reconciliation engine for one chat
(src/index.mjs:457-578): effective configuration, transition-case deletions
(Cases 1-3), the sequential mode overrides, dispatch to
send/edit single/album, and map bookkeeping. -/
def reconcileChat (chatId : String) (e : Entry) (gw : Gateway) (ts : String)
    (cb : String → String) (dirty : Bool) : ChatStep :=
  let effCap := e.caption.getD DEFAULT_CAPTION
  if chatId = "" then
    { entry := some e, dirty := dirty, res := { ok := false, reason := some "invalid-config" }, deletes := [] }
  else
    match e.image_url with
    | none =>
      { entry := some e, dirty := dirty, res := { ok := true, reason := some "no-image" }, deletes := [] }
    | some img =>
      if img.truthy = false then
        { entry := some e, dirty := dirty, res := { ok := true, reason := some "no-image" }, deletes := [] }
      else
        let isAlb := img.isAlbum
        let alb := e.message_ids
        let dels := transDeletes e img
        if isEditB e img = false then
          if isAlb then
            let r := sendAlbumM gw.send
            if r.ok && r.reason == some "unregistered" then
              { entry := none, dirty := true, res := r, deletes := dels }
            else
              let p1 := if r.ok && r.message_ids.isSome then setMessageIds e dirty (r.message_ids.getD []) else (e, dirty)
              let p2 := updateStoredChatFields p1.1 (some img) effCap p1.2
              { entry := some p2.1, dirty := p2.2, res := r, deletes := dels }
          else
            let r := sendPhotoM gw.send
            if r.ok && r.reason == some "unregistered" then
              { entry := none, dirty := true, res := r, deletes := dels }
            else
              let p1 := if r.ok && idTruthy r.message_id then setMessageId e dirty (r.message_id.getD 0) else (e, dirty)
              let p2 := updateStoredChatFields p1.1 (some img) effCap p1.2
              { entry := some p2.1, dirty := p2.2, res := r, deletes := dels }
        else
          if isAlb then
            let r := editAlbumM cb img.list (withTimestamp effCap ts) (alb.getD []) gw.albumItem
            let p2 := updateStoredChatFields e (some img) effCap dirty
            { entry := some p2.1, dirty := p2.2, res := r, deletes := dels }
          else
            let r := editPhotoM gw.edit gw.recovery (e.message_id.getD 0)
            if r.ok && r.reason == some "unregistered" then
              { entry := none, dirty := true, res := r, deletes := dels }
            else
              let p1 := if r.ok && r.replaced && idTruthy r.message_id then setMessageId e dirty (r.message_id.getD 0) else (e, dirty)
              let p2 := updateStoredChatFields p1.1 (some img) effCap p1.2
              { entry := some p2.1, dirty := p2.2, res := r, deletes := dels }

/-! ## Registration engine (`registerFromUpdates`, src/index.mjs:36-74) -/

structure ChatInfo where
  id : Int
  ctype : String
deriving DecidableEq

structure MemberUpdate where
  chat : Option ChatInfo := none
  status : Option String := none
deriving DecidableEq

structure Update where
  my_chat_member : Option MemberUpdate := none
deriving DecidableEq

structure RegState where
  map : MMap
  dirty : Bool
  newly : List String
deriving DecidableEq

/-- `['left','kicked','restricted'].includes(status)`-style membership test on
an optional status string. -/
def statusIn (l : List String) : Option String → Bool
  | some s => l.contains s
  | none => false

/-- One iteration of the `registerFromUpdates` loop (src/index.mjs:38-68). -/
def registerOne (st : RegState) (u : Update) : RegState :=
  match u.my_chat_member with
  | none => st
  | some mcm =>
    match mcm.chat with
    | none => st
    | some chat =>
      if chat.ctype ≠ "channel" ∧ chat.ctype ≠ "supergroup" ∧ chat.ctype ≠ "group" then st
      else
        let chatId := toString chat.id
        if statusIn ["left", "kicked", "restricted"] mcm.status then
          if (mapFind st.map chatId).isSome then
            { st with map := mapErase st.map chatId, dirty := true }
          else st
        else if statusIn ["administrator", "creator", "member"] mcm.status = false then st
        else if (mapFind st.map chatId).isSome then st
        else { st with map := mapSet st.map chatId {}, newly := st.newly ++ [chatId] }

/-- `registerFromUpdates` (src/index.mjs:36-74). -/
def registerFromUpdates (m : MMap) (dirty : Bool) (updates : List Update) : RegState :=
  let st := updates.foldl registerOne { map := m, dirty := dirty, newly := [] }
  if st.newly.length > 0 then { st with dirty := true } else st

/-! ## Command processor (src/index.mjs:299-389) -/

inductive CapReply | resetOk | emptyError | savedOk
deriving DecidableEq

structure CapOut where
  map : MMap
  dirty : Bool
  reply : CapReply
  deletedCmd : List Int
deriving DecidableEq

/-- Best-effort deletion of the triggering command message
(`if (msg.message_id) deleteMessage(...)`). -/
def delCmd : Option Int → List Int :=
  fun o => if idTruthy o then [o.getD 0] else []

/-- The `/graphenko_caption` handler body (src/index.mjs:313-346), starting
from the regex capture `raw`. -/
def handleCaptionCommand (m : MMap) (dirty : Bool) (chatId : String) (raw : String)
    (msgId : Option Int) : CapOut :=
  let arg := jsTrim raw
  let m1 := if (mapFind m chatId).isSome then m else mapSet m chatId {}
  if strLower arg = "-default" then
    let e := (mapFind m1 chatId).getD {}
    let st := if e.caption ≠ none then (mapSet m1 chatId { e with caption := none }, true)
              else (m1, dirty)
    { map := st.1, dirty := st.2, reply := .resetOk, deletedCmd := delCmd msgId }
  else if arg = "" then
    { map := m1, dirty := dirty, reply := .emptyError, deletedCmd := [] }
  else
    let e := (mapFind m1 chatId).getD {}
    { map := mapSet m1 chatId { e with caption := some arg }, dirty := true,
      reply := .savedOk, deletedCmd := delCmd msgId }

inductive ImgReply | usageError | fetchError | savedOk
deriving DecidableEq

structure ImgOut where
  map : MMap
  dirty : Bool
  reply : ImgReply
  deletedWelcome : List Int
  deletedCmd : List Int
deriving DecidableEq

/-- `isValidOutageImageUrl` (src/src/utils/url.mjs): base-path prefix,
case-insensitive `.png` suffix, and syntactic URL validity; the WHATWG URL
parser is an external library, taken as the oracle `parses`. -/
def isValidOutageImageUrl (parses : String → Bool) (url : String) : Bool :=
  strStarts url OUTAGE_IMAGES_BASE && strEnds (strLower url) ".png" && parses url

/-- The `/graphenko_image` handler body (src/index.mjs:351-386), starting from
the captured `url` token. `verifyOk` is the outcome of the remote
`verifyRemotePng` check, `delWelcomeOk` the outcome of deleting the pending
welcome message. -/
def handleImageCommand (parses : String → Bool) (verifyOk : Bool) (delWelcomeOk : Bool)
    (m : MMap) (dirty : Bool) (chatId : String) (url : String) (msgId : Option Int) : ImgOut :=
  if isValidOutageImageUrl parses url = false then
    { map := m, dirty := dirty, reply := .usageError, deletedWelcome := [], deletedCmd := [] }
  else if verifyOk = false then
    { map := m, dirty := dirty, reply := .fetchError, deletedWelcome := [], deletedCmd := [] }
  else
    let m1 := if (mapFind m chatId).isSome then m else mapSet m chatId {}
    let e := (mapFind m1 chatId).getD {}
    let e1 := { e with image_url := some (.one url) }
    let m2 := mapSet m1 chatId e1
    let wid := e1.welcome_message_id
    let st :=
      if idTruthy wid then
        if delWelcomeOk then
          (mapSet m2 chatId { e1 with welcome_message_id := none }, [wid.getD 0])
        else (m2, [wid.getD 0])
      else (m2, [])
    { map := st.1, dirty := true, reply := .savedOk,
      deletedWelcome := st.2, deletedCmd := delCmd msgId }

/-! ## Storage layer (`src/src/storage/messageMapIO.mjs`)

The on-disk file is JSON; field values are arbitrary JSON values, so the
storage layer is modelled over a `Json` type. -/

inductive Json where
  | null
  | bool (b : Bool)
  | num (n : Int)
  | str (s : String)
  | arr (items : List Json)
  | obj (fields : List (String × Json))

/-- JS truthiness of a JSON value. -/
def Json.truthy : Json → Bool
  | .null => false
  | .bool b => b
  | .num n => n != 0
  | .str s => s != ""
  | .arr _ => true
  | .obj _ => true

/-- `v && typeof v === 'object'` (arrays are objects, `null` is falsy). -/
def Json.isObjLike : Json → Bool
  | .arr _ => true
  | .obj _ => true
  | _ => false

/-- First-match lookup in an object's field list (parsed JSON objects have
unique keys). -/
def jGet : List (String × Json) → String → Option Json
  | [], _ => none
  | (k, v) :: rest, key => if key = k then some v else jGet rest key

/-- The own enumerable properties of a JSON value: an object's fields, or an
array's elements keyed by index strings. -/
def jFields : Json → Option (List (String × Json))
  | .obj fs => some fs
  | .arr l => some (l.enum.map (fun p => (toString p.1, p.2)))
  | _ => none

/-- JS property access `v[key]` on a parsed JSON value. -/
def jAttr (v : Json) (key : String) : Option Json :=
  match jFields v with
  | some fs => jGet fs key
  | none => none

mutual

/-- JS `String(v)` for a parsed JSON value (arrays join their elements with
commas, rendering `null` elements empty; objects print `[object Object]`). -/
def jsStringOf : Json → String
  | .null => "null"
  | .bool b => cond b "true" "false"
  | .num n => toString n
  | .str s => s
  | .obj _ => "[object Object]"
  | .arr l => jsStringList l

/-- Join of array elements for `String(v)`. -/
def jsStringList : List Json → String
  | [] => ""
  | [x] => jsStringElem x
  | x :: y :: rest => jsStringElem x ++ "," ++ jsStringList (y :: rest)

/-- One array element under `Array.prototype.join`: `null` renders empty. -/
def jsStringElem : Json → String
  | .null => ""
  | v => jsStringOf v

end

/-- One record of the chat-map file, as read/written by the storage layer.
Field values are raw JSON; `none` means the property is absent. -/
structure LEntry where
  message_id : Option Json := none
  message_ids : Option Json := none
  image_url : Option Json := none
  caption : Option Json := none
  welcome_message_id : Option Json := none
  message_thread_id : Option Json := none
  monitor_host : Option Json := none
  monitor_port : Option Json := none
  monitor_interval_sec : Option Json := none
  monitor_last_status : Option Json := none
  monitor_last_change : Option Json := none
  monitor_enabled : Option Json := none

/-- Keep a looked-up property only when its value is truthy
(the `if (val.image_url)` / `if (val.monitor_host)` guards). -/
def optTruthy : Option Json → Option Json
  | some v => if v.truthy then some v else none
  | none => none

/-- The entry built from one record's value by `loadMessageMapFromFile`
(identical field handling in its Case A and Case B). -/
def loadVal (val : Json) : LEntry :=
  { message_id := jAttr val "message_id"
    message_ids := jAttr val "message_ids"
    image_url := optTruthy (jAttr val "image_url")
    caption := jAttr val "caption"
    welcome_message_id := jAttr val "welcome_message_id"
    message_thread_id := jAttr val "message_thread_id"
    monitor_host := optTruthy (jAttr val "monitor_host")
    monitor_port := jAttr val "monitor_port"
    monitor_interval_sec := jAttr val "monitor_interval_sec"
    monitor_last_status := jAttr val "monitor_last_status"
    monitor_last_change := jAttr val "monitor_last_change"
    monitor_enabled := jAttr val "monitor_enabled" }

/-- One iteration of the item loop of `loadMessageMapFromFile`
(src/src/storage/messageMapIO.mjs:14-73): canonical single-key records
(Case A), flat records carrying `chat_id` (Case B), and unknown shapes. -/
def loadItem (acc : List (String × LEntry) × Bool) (item : Json) :
    List (String × LEntry) × Bool :=
  if item.isObjLike = false then (acc.1, true)
  else
    let fs := (jFields item).getD []
    let ks := fs.map Prod.fst
    if ks.length = 1 ∧ ks.contains "chat_id" = false then
      let k := ks.headD ""
      let val := (jGet fs k).getD .null
      if val.isObjLike then
        match jAttr val "deleted" with
        | some (.bool true) => (acc.1, true)
        | _ => (mapSet acc.1 k (loadVal val), acc.2)
      else (acc.1, true)
    else if ks.contains "chat_id" then
      let chatId := jsStringOf ((jGet fs "chat_id").getD .null)
      if chatId = "" then (acc.1, true)
      else
        match jAttr item "deleted" with
        | some (.bool true) => (acc.1, true)
        | _ => (mapSet acc.1 chatId (loadVal item), true)
    else (acc.1, true)

/-- `loadMessageMapFromFile` (src/src/storage/messageMapIO.mjs:4-80) on the
parsed file content. Returns the map and the `wasNormalized` flag. -/
def loadMessageMapFromFile (j : Json) : List (String × LEntry) × Bool :=
  match j with
  | .arr items => items.foldl loadItem ([], false)
  | _ => ([], false)

/-- A present field of the canonical record (`!== undefined` guard). -/
def optField (name : String) (o : Option Json) : List (String × Json) :=
  match o with
  | some v => [(name, v)]
  | none => []

/-- A present-and-truthy field of the canonical record. -/
def optFieldT (name : String) (o : Option Json) : List (String × Json) :=
  match o with
  | some v => if v.truthy then [(name, v)] else []
  | none => []

/-- The canonical field list written for one record by `saveMessageMapToFile`
(src/src/storage/messageMapIO.mjs:87-102), in insertion order. -/
def saveEntryFields (e : LEntry) : List (String × Json) :=
  optField "message_id" e.message_id ++ optField "message_ids" e.message_ids
    ++ optFieldT "image_url" e.image_url ++ optField "caption" e.caption
    ++ optField "welcome_message_id" e.welcome_message_id
    ++ optField "message_thread_id" e.message_thread_id
    ++ optFieldT "monitor_host" e.monitor_host ++ optField "monitor_port" e.monitor_port
    ++ optField "monitor_interval_sec" e.monitor_interval_sec
    ++ optField "monitor_last_status" e.monitor_last_status
    ++ optField "monitor_last_change" e.monitor_last_change
    ++ optField "monitor_enabled" e.monitor_enabled

/-- `Object.keys(map).sort((a,b) => a.localeCompare(b))`, modelled with the
lexicographic order on strings. -/
def sortKeys (l : List String) : List String := l.insertionSort (· ≤ ·)

/-- `saveMessageMapToFile` (src/src/storage/messageMapIO.mjs:83-112): the JSON
array of single-key canonical records, keys sorted. -/
def saveMessageMapToFile (m : List (String × LEntry)) : Json :=
  let keys := sortKeys (m.map Prod.fst)
  .arr (keys.map (fun k => .obj [(k, .obj (saveEntryFields ((mapFind m k).getD {})))]))

/-! ### Rendering (`JSON.stringify(arr, null, 2) + '\n'`) -/

/-- One hexadecimal digit. -/
def hexDigit (n : Nat) : String :=
  if n = 0 then "0" else if n = 1 then "1" else if n = 2 then "2" else if n = 3 then "3"
  else if n = 4 then "4" else if n = 5 then "5" else if n = 6 then "6" else if n = 7 then "7"
  else if n = 8 then "8" else if n = 9 then "9" else if n = 10 then "a" else if n = 11 then "b"
  else if n = 12 then "c" else if n = 13 then "d" else if n = 14 then "e" else "f"

/-- JSON string escaping for one character. -/
def jsonEscapeChar (c : Char) : String :=
  if c = '"' then "\\\"" else if c = '\\' then "\\\\"
  else if c = '\n' then "\\n" else if c = '\r' then "\\r" else if c = '\t' then "\\t"
  else if c = '\x08' then "\\b" else if c = '\x0c' then "\\f"
  else if c.toNat < 32 then "\\u00" ++ hexDigit (c.toNat / 16) ++ hexDigit (c.toNat % 16)
  else String.singleton c

/-- A quoted JSON string literal. -/
def jsonQuote (s : String) : String :=
  "\"" ++ String.join (s.toList.map jsonEscapeChar) ++ "\""

/-- `n` spaces of indentation. -/
def padN (n : Nat) : String := String.mk (List.replicate n ' ')

mutual

/-- Pretty-printing with two-space indent levels, as `JSON.stringify(v, null, 2)`. -/
def renderJson (ind : Nat) : Json → String
  | .null => "null"
  | .bool b => cond b "true" "false"
  | .num n => toString n
  | .str s => jsonQuote s
  | .arr [] => "[]"
  | .arr (x :: xs) =>
    "[\n" ++ renderItems (ind + 2) (x :: xs) ++ "\n" ++ padN ind ++ "]"
  | .obj [] => "\x7b\x7d"
  | .obj (f :: fs) =>
    "\x7b\n" ++ renderFields (ind + 2) (f :: fs) ++ "\n" ++ padN ind ++ "\x7d"

/-- Comma-separated indented array items. -/
def renderItems (ind : Nat) : List Json → String
  | [] => ""
  | [x] => padN ind ++ renderJson ind x
  | x :: y :: rest => padN ind ++ renderJson ind x ++ ",\n" ++ renderItems ind (y :: rest)

/-- Comma-separated indented object fields. -/
def renderFields (ind : Nat) : List (String × Json) → String
  | [] => ""
  | [(k, v)] => padN ind ++ jsonQuote k ++ ": " ++ renderJson ind v
  | (k, v) :: f :: rest =>
    padN ind ++ jsonQuote k ++ ": " ++ renderJson ind v ++ ",\n" ++ renderFields ind (f :: rest)

end

/-- The exact bytes written by `saveMessageMapToFile`. -/
def saveFile (m : List (String × LEntry)) : String :=
  renderJson 0 (saveMessageMapToFile m) ++ "\n"

/-! ## Concrete gateway responses used in examples -/

/-- A 403 response whose description does not mention membership. -/
def jBlocked403 : TgJson :=
  { ok := false, error_code := some 403, description := some "Forbidden: bot was blocked by the user" }

/-- The spec's example 403 "not a member" response. -/
def jNotMember403 : TgJson :=
  { ok := false, error_code := some 403, description := some "Forbidden: bot is not a member of the channel chat" }

/-- A generic 400 edit failure ("message to edit not found"). -/
def jNotFound400 : TgJson :=
  { ok := false, error_code := some 400, description := some "Bad Request: message to edit not found" }

/-- A successful send returning message id 77. -/
def jSent77 : TgJson := { ok := true, result_ids := [77] }

/-- A successful media-group send returning message ids 10 and 11. -/
def jAlbum1011 : TgJson := { ok := true, result_ids := [10, 11] }

/-- Spec-side description of one `editAlbum` item outcome: a thrown or failing
edit is recorded as a failure, except that "message is not modified" is
silently accepted (recorded as nothing); a success is recorded as a success. -/
def albumItemOutcome (rsp : Option TgJson) : Option Bool :=
  match rsp with
  | none => some false
  | some j =>
    if j.ok = false then
      if j.error_code == some 400 && descContains j.description "message is not modified" then none
      else some false
    else some true

/-- Spec-side description of the edit call for the indexed pair
`(index, (stored id, image))`: caption only on the first pair. -/
def albumCallSpec (cb : String → String) (cap : String) (p : Nat × (Int × String)) : EditCall :=
  { message_id := p.2.1, media := cb p.2.2, caption := if p.1 = 0 then cap else "" }

/-- The normalization a record undergoes when its saved form is re-loaded:
the truthiness-guarded fields are dropped when falsy, all others verbatim. -/
def pruneL (e : LEntry) : LEntry :=
  { e with image_url := optTruthy e.image_url, monitor_host := optTruthy e.monitor_host }

/-- A sample stored record carrying monitor fields. -/
def lSample : LEntry :=
  { message_id := some (Json.num 7), image_url := some (Json.str "https://host/a.png"),
    monitor_host := some (Json.str "93.127.118.86"), monitor_port := some (Json.num 443),
    monitor_enabled := some (Json.bool true) }

/-- A sample one-chat map. -/
def mSample : List (String × LEntry) := [("-100111", lSample)]

/-! ## Helper lemmas about the send/edit helpers -/

theorem sendPhotoM_unreg (rsp : Option TgJson) :
    (sendPhotoM rsp).reason = some "unregistered" → (sendPhotoM rsp).ok = true := by
  cases rsp with
  | none => simp [sendPhotoM]
  | some j =>
    simp only [sendPhotoM]
    split
    · split
      · simp
      · split <;> simp
    · simp

theorem sendAlbumM_unreg (rsp : Option TgJson) :
    (sendAlbumM rsp).reason = some "unregistered" → (sendAlbumM rsp).ok = true := by
  cases rsp with
  | none => simp [sendAlbumM]
  | some j =>
    simp only [sendAlbumM]
    split
    · split <;> simp
    · simp

theorem editPhotoM_unreg (rsp rec : Option TgJson) (mid : Int) :
    (editPhotoM rsp rec mid).reason = some "unregistered" →
      (editPhotoM rsp rec mid).ok = true := by
  cases rsp with
  | none => simp [editPhotoM]
  | some j =>
    simp only [editPhotoM]
    split <;> [skip; simp]
    split
    · simp
    split
    · simp
    split
    · intro h
      simpa using sendPhotoM_unreg rec (by simpa using h)
    split <;> simp_all

theorem sendPhotoM_reason (rsp : Option TgJson) :
    (sendPhotoM rsp).reason = none ∨ (sendPhotoM rsp).reason = some "unregistered" ∨
      (sendPhotoM rsp).reason = some "topic-closed" := by
  cases rsp with
  | none => simp [sendPhotoM]
  | some j =>
    simp only [sendPhotoM]
    split
    · split
      · simp
      · split <;> simp
    · simp

theorem sendAlbumM_reason (rsp : Option TgJson) :
    (sendAlbumM rsp).reason = none ∨ (sendAlbumM rsp).reason = some "unregistered" := by
  cases rsp with
  | none => simp [sendAlbumM]
  | some j =>
    simp only [sendAlbumM]
    split
    · split <;> simp
    · simp

theorem editPhotoM_reason (rsp rec : Option TgJson) (mid : Int) :
    (editPhotoM rsp rec mid).reason = none ∨
      (editPhotoM rsp rec mid).reason = some "unregistered" ∨
      (editPhotoM rsp rec mid).reason = some "topic-closed" := by
  cases rsp with
  | none => simp [editPhotoM]
  | some j =>
    simp only [editPhotoM]
    split <;> [skip; simp]
    split
    · simp
    split
    · simp
    split
    · simpa using sendPhotoM_reason rec
    split <;> simp

/-! ## Helper lemmas about map bookkeeping -/

theorem setMessageId_caption (e : Entry) (d : Bool) (m : Int) :
    ((setMessageId e d m).1).caption = e.caption := by
  simp only [setMessageId]; split <;> [rfl; split <;> rfl]

theorem setMessageIds_caption (e : Entry) (d : Bool) (ms : List Int) :
    ((setMessageIds e d ms).1).caption = e.caption := by
  simp only [setMessageIds]; split <;> split <;> rfl

theorem updateStored_message_id (e : Entry) (ei : Option ImgVal) (c : String) (d : Bool) :
    ((updateStoredChatFields e ei c d).1).message_id = e.message_id := by
  simp only [updateStoredChatFields]; split <;> split <;> rfl

theorem updateStored_message_ids (e : Entry) (ei : Option ImgVal) (c : String) (d : Bool) :
    ((updateStoredChatFields e ei c d).1).message_ids = e.message_ids := by
  simp only [updateStoredChatFields]; split <;> split <;> rfl

theorem updateStored_caption_sync (e : Entry) (ei : Option ImgVal) (c : String) (d : Bool)
    (h : e.caption = some c ∨ c ≠ "") :
    ((updateStoredChatFields e ei c d).1).caption = some c := by
  simp only [updateStoredChatFields]
  rcases h with h | h
  · split <;> split <;> simp_all
  · split <;> split <;> simp_all

theorem updateStored_dirty_of_none (e : Entry) (ei : Option ImgVal) (c : String) (d : Bool)
    (h1 : e.caption = none) (h2 : c ≠ "") :
    (updateStoredChatFields e ei c d).2 = true := by
  simp only [updateStoredChatFields]
  split <;> simp_all

theorem editAlbumM_reason (cb : String → String) (imgs : List String) (cap : String)
    (ex : List Int) (rsp : Nat → Option TgJson) :
    (editAlbumM cb imgs cap ex rsp).reason = none ∨
      (editAlbumM cb imgs cap ex rsp).reason = some "size-mismatch" := by
  simp only [editAlbumM]; split <;> simp

theorem editAlbumM_of_len (cb : String → String) (imgs : List String) (cap : String)
    (ex : List Int) (rsp : Nat → Option TgJson) (h : imgs.length = ex.length) :
    (editAlbumM cb imgs cap ex rsp).ok = true ∧
      (editAlbumM cb imgs cap ex rsp).reason = none := by
  simp [editAlbumM, h]

/-- Whenever a chat's reconciliation reports the non-failing "unregistered"
outcome, the chat's record has been deleted and the map marked dirty. -/
theorem reconcileChat_unreg (chatId : String) (e : Entry) (gw : Gateway) (ts : String)
    (cb : String → String) (dirty : Bool) :
    (reconcileChat chatId e gw ts cb dirty).res.reason = some "unregistered" →
      (reconcileChat chatId e gw ts cb dirty).entry = none ∧
      (reconcileChat chatId e gw ts cb dirty).dirty = true := by
  simp only [reconcileChat]
  split
  · simp
  split
  · simp
  split
  · simp
  split
  · -- send path
    split
    · -- album send
      split
      · simp
      · rename_i hg
        intro h
        refine absurd ?_ hg
        simp [show (sendAlbumM gw.send).reason = some "unregistered" from h,
          sendAlbumM_unreg gw.send h]
    · -- single send
      split
      · simp
      · rename_i hg
        intro h
        refine absurd ?_ hg
        simp [show (sendPhotoM gw.send).reason = some "unregistered" from h,
          sendPhotoM_unreg gw.send h]
  · -- edit path
    split
    · -- album edit
      intro h
      rcases editAlbumM_reason cb _ _ _ gw.albumItem with h1 | h1 <;>
        rw [show (editAlbumM cb _ _ _ gw.albumItem).reason = some "unregistered" from h] at h1 <;>
        simp at h1
    · -- single edit
      split
      · simp
      · rename_i hg
        intro h
        refine absurd ?_ hg
        simp [show (editPhotoM gw.edit gw.recovery (e.message_id.getD 0)).reason
            = some "unregistered" from h,
          editPhotoM_unreg gw.edit gw.recovery (e.message_id.getD 0) h]

/-- Caption bookkeeping after a send/edit: `updateStoredChatFields` leaves the
stored caption equal to the effective caption, and marks dirty when no
override was stored. -/
theorem caption_bookkeep (pre : Entry × Bool) (cap0 : Option String) (img : ImgVal)
    (hc : pre.1.caption = cap0) :
    ((updateStoredChatFields pre.1 (some img) (cap0.getD DEFAULT_CAPTION) pre.2).1).caption
        = some (cap0.getD DEFAULT_CAPTION)
    ∧ (cap0 = none →
        (updateStoredChatFields pre.1 (some img) (cap0.getD DEFAULT_CAPTION) pre.2).2 = true) := by
  constructor
  · apply updateStored_caption_sync
    cases cap0 with
    | none => right; decide
    | some s => left; simp [hc]
  · intro h0
    apply updateStored_dirty_of_none
    · rw [hc, h0]
    · rw [h0]; decide

theorem sendPhotoM_removed_iff (j : TgJson) :
    (sendPhotoM (some j)).removed = true ↔
      (j.ok = false ∧ j.error_code = some 403 ∧ hasNotAMember j.description = true) := by
  simp only [sendPhotoM]
  split
  · split
    · simp_all [Bool.and_eq_true, beq_iff_eq]
    · split <;> simp_all [Bool.and_eq_true, beq_iff_eq]
  · simp_all

theorem sendAlbumM_removed_iff (j : TgJson) :
    (sendAlbumM (some j)).removed = true ↔ (j.ok = false ∧ j.error_code = some 403) := by
  simp only [sendAlbumM]
  split
  · split <;> simp_all [beq_iff_eq]
  · simp_all

theorem sendPhotoM_ok_eq (j : TgJson) (hok : j.ok = true) :
    sendPhotoM (some j) =
      { ok := true, message_id := j.result_ids.head?, pins := [j.result_ids.head?] } := by
  simp [sendPhotoM, hok]

theorem editPhotoM_400 (j : TgJson) (rec : Option TgJson) (mid : Int)
    (hok : j.ok = false) (hec : j.error_code = some 400)
    (h1 : descContains j.description "message is not modified" = false)
    (h2 : descContains j.description "TOPIC_CLOSED" = false) :
    editPhotoM (some j) rec mid
      = { sendPhotoM rec with replaced := true, deletes := mid :: (sendPhotoM rec).deletes } := by
  simp [editPhotoM, hok, hec, h1, h2]

theorem setMessageId_fields (e : Entry) (d : Bool) (m : Int) (hm : m ≠ 0) :
    ((setMessageId e d m).1).message_id = some m ∧
      ((setMessageId e d m).1).message_ids = none := by
  simp only [setMessageId, if_neg hm]
  split <;> simp_all

/-! ## Assoc-list lemmas for the JS-object model -/

theorem mapFind_mapSet_self {α : Type} (m : List (String × α)) (k : String) (v : α) :
    mapFind (mapSet m k v) k = some v := by
  induction m with
  | nil => simp [mapSet, mapFind]
  | cons p rest ih =>
    obtain ⟨k1, v1⟩ := p
    by_cases h : k = k1
    · simp [mapSet, mapFind, h]
    · simp [mapSet, mapFind, h, ih]

theorem mapFind_not_mem {α : Type} (m : List (String × α)) (k : String)
    (h : k ∉ m.map Prod.fst) : mapFind m k = none := by
  induction m with
  | nil => simp [mapFind]
  | cons p rest ih =>
    obtain ⟨k1, v1⟩ := p
    simp only [List.map_cons, List.mem_cons] at h
    push_neg at h
    simp [mapFind, h.1, ih h.2]

theorem mapErase_find_self {α : Type} (m : List (String × α)) (k : String)
    (hnd : (m.map Prod.fst).Nodup) : mapFind (mapErase m k) k = none := by
  induction m with
  | nil => simp [mapErase, mapFind]
  | cons p rest ih =>
    obtain ⟨k1, v1⟩ := p
    simp only [List.map_cons, List.nodup_cons] at hnd
    by_cases h : k = k1
    · subst h
      simp only [mapErase, if_pos rfl]
      exact mapFind_not_mem rest k hnd.1
    · simp [mapErase, mapFind, h, ih hnd.2]

theorem mapSet_keys_sub {α : Type} (m : List (String × α)) (k : String) (v : α) :
    ∀ x, x ∈ (mapSet m k v).map Prod.fst → x ∈ m.map Prod.fst ∨ x = k := by
  induction m with
  | nil => intro x hx; simp [mapSet] at hx; simp [hx]
  | cons p rest ih =>
    obtain ⟨k1, v1⟩ := p
    intro x hx
    by_cases h : k = k1
    · simp only [mapSet, if_pos h, List.map_cons, List.mem_cons] at hx
      rcases hx with hx | hx
      · simp [hx]
      · simp [hx]
    · simp only [mapSet, if_neg h, List.map_cons, List.mem_cons] at hx
      rcases hx with hx | hx
      · simp [hx]
      · rcases ih x hx with h2 | h2
        · simp [h2]
        · simp [h2]

theorem mapSet_nodup {α : Type} (m : List (String × α)) (k : String) (v : α)
    (hnd : (m.map Prod.fst).Nodup) : ((mapSet m k v).map Prod.fst).Nodup := by
  induction m with
  | nil => simp [mapSet]
  | cons p rest ih =>
    obtain ⟨k1, v1⟩ := p
    simp only [List.map_cons, List.nodup_cons] at hnd
    by_cases h : k = k1
    · simp only [mapSet, if_pos h, List.map_cons, List.nodup_cons]
      exact ⟨hnd.1, hnd.2⟩
    · simp only [mapSet, if_neg h, List.map_cons, List.nodup_cons]
      refine ⟨fun hmem => ?_, ih hnd.2⟩
      rcases mapSet_keys_sub rest k v k1 hmem with h2 | h2
      · exact hnd.1 h2
      · exact h h2.symm

/-! ## Storage-layer lemmas -/

theorem jGet_append (xs ys : List (String × Json)) (k : String) :
    jGet (xs ++ ys) k = (match jGet xs k with | some v => some v | none => jGet ys k) := by
  induction xs with
  | nil => simp [jGet]
  | cons p rest ih =>
    obtain ⟨k1, v1⟩ := p
    by_cases h : k = k1 <;> simp [jGet, h, ih]

theorem jGet_optField_self (n : String) (o : Option Json) : jGet (optField n o) n = o := by
  cases o <;> simp [optField, jGet]

theorem jGet_optField_ne (n k : String) (o : Option Json) (h : k ≠ n) :
    jGet (optField n o) k = none := by
  cases o <;> simp [optField, jGet, h]

theorem optFieldT_eq (n : String) (o : Option Json) :
    optFieldT n o = optField n (optTruthy o) := by
  cases o with
  | none => rfl
  | some v =>
    simp only [optFieldT, optTruthy]
    split <;> simp [optField]

theorem optTruthy_idem (o : Option Json) : optTruthy (optTruthy o) = optTruthy o := by
  cases o with
  | none => rfl
  | some v =>
    simp only [optTruthy]
    split <;> simp_all [optTruthy]

theorem jGet_sef (e : LEntry) (k : String) :
    jGet (saveEntryFields e) k =
      (if k = "message_id" then e.message_id
      else if k = "message_ids" then e.message_ids
      else if k = "image_url" then optTruthy e.image_url
      else if k = "caption" then e.caption
      else if k = "welcome_message_id" then e.welcome_message_id
      else if k = "message_thread_id" then e.message_thread_id
      else if k = "monitor_host" then optTruthy e.monitor_host
      else if k = "monitor_port" then e.monitor_port
      else if k = "monitor_interval_sec" then e.monitor_interval_sec
      else if k = "monitor_last_status" then e.monitor_last_status
      else if k = "monitor_last_change" then e.monitor_last_change
      else if k = "monitor_enabled" then e.monitor_enabled
      else none) := by
  simp only [saveEntryFields, optFieldT_eq, jGet_append]
  by_cases h1 : k = "message_id"
  · subst h1; cases e.message_id <;> simp [jGet_optField_self, jGet_optField_ne]
  all_goals rw [jGet_optField_ne _ _ _ h1]
  all_goals by_cases h2 : k = "message_ids"
  · subst h2; cases e.message_ids <;> simp [jGet_optField_self, jGet_optField_ne, h1]
  all_goals rw [jGet_optField_ne _ _ _ h2]
  all_goals by_cases h3 : k = "image_url"
  · subst h3; cases hv : optTruthy e.image_url <;>
      simp [jGet_optField_self, jGet_optField_ne, h1, h2, hv]
  all_goals rw [jGet_optField_ne _ _ _ h3]
  all_goals by_cases h4 : k = "caption"
  · subst h4; cases e.caption <;> simp [jGet_optField_self, jGet_optField_ne, h1, h2, h3]
  all_goals rw [jGet_optField_ne _ _ _ h4]
  all_goals by_cases h5 : k = "welcome_message_id"
  · subst h5; cases e.welcome_message_id <;>
      simp [jGet_optField_self, jGet_optField_ne, h1, h2, h3, h4]
  all_goals rw [jGet_optField_ne _ _ _ h5]
  all_goals by_cases h6 : k = "message_thread_id"
  · subst h6; cases e.message_thread_id <;>
      simp [jGet_optField_self, jGet_optField_ne, h1, h2, h3, h4, h5]
  all_goals rw [jGet_optField_ne _ _ _ h6]
  all_goals by_cases h7 : k = "monitor_host"
  · subst h7; cases hv : optTruthy e.monitor_host <;>
      simp [jGet_optField_self, jGet_optField_ne, h1, h2, h3, h4, h5, h6, hv]
  all_goals rw [jGet_optField_ne _ _ _ h7]
  all_goals by_cases h8 : k = "monitor_port"
  · subst h8; cases e.monitor_port <;>
      simp [jGet_optField_self, jGet_optField_ne, h1, h2, h3, h4, h5, h6, h7]
  all_goals rw [jGet_optField_ne _ _ _ h8]
  all_goals by_cases h9 : k = "monitor_interval_sec"
  · subst h9; cases e.monitor_interval_sec <;>
      simp [jGet_optField_self, jGet_optField_ne, h1, h2, h3, h4, h5, h6, h7, h8]
  all_goals rw [jGet_optField_ne _ _ _ h9]
  all_goals by_cases h10 : k = "monitor_last_status"
  · subst h10; cases e.monitor_last_status <;>
      simp [jGet_optField_self, jGet_optField_ne, h1, h2, h3, h4, h5, h6, h7, h8, h9]
  all_goals rw [jGet_optField_ne _ _ _ h10]
  all_goals by_cases h11 : k = "monitor_last_change"
  · subst h11; cases e.monitor_last_change <;>
      simp [jGet_optField_self, jGet_optField_ne, h1, h2, h3, h4, h5, h6, h7, h8, h9, h10]
  all_goals rw [jGet_optField_ne _ _ _ h11]
  all_goals by_cases h12 : k = "monitor_enabled"
  · subst h12; cases e.monitor_enabled <;>
      simp [jGet_optField_self, jGet_optField_ne,
        h1, h2, h3, h4, h5, h6, h7, h8, h9, h10, h11]
  all_goals rw [jGet_optField_ne _ _ _ h12]
  all_goals simp [jGet, h1, h2, h3, h4, h5, h6, h7, h8, h9, h10, h11, h12]

theorem jGet_sef_deleted (e : LEntry) : jGet (saveEntryFields e) "deleted" = none := by
  simp [jGet_sef]

theorem loadVal_save (e : LEntry) : loadVal (.obj (saveEntryFields e)) = pruneL e := by
  simp only [loadVal, jAttr, jFields, jGet_sef, pruneL]
  simp [optTruthy_idem]

theorem saveEntryFields_prune (e : LEntry) : saveEntryFields (pruneL e) = saveEntryFields e := by
  simp only [saveEntryFields, pruneL, optFieldT_eq, optTruthy_idem]

theorem mapSet_not_mem {α : Type} (m : List (String × α)) (k : String) (v : α)
    (h : k ∉ m.map Prod.fst) : mapSet m k v = m ++ [(k, v)] := by
  induction m with
  | nil => rfl
  | cons p rest ih =>
    obtain ⟨k1, v1⟩ := p
    simp only [List.map_cons, List.mem_cons] at h
    push_neg at h
    simp [mapSet, h.1, ih h.2]

theorem mapFind_some_mem {α : Type} (m : List (String × α)) (k : String) (e : α)
    (h : mapFind m k = some e) : k ∈ m.map Prod.fst := by
  induction m with
  | nil => simp [mapFind] at h
  | cons p rest ih =>
    obtain ⟨k1, v1⟩ := p
    by_cases hk : k = k1
    · simp [hk]
    · simp only [mapFind, if_neg hk] at h
      simp [ih h]

theorem mapFind_map_of_mem (keys : List String) (f : String → LEntry) (k0 : String)
    (hk : k0 ∈ keys) :
    mapFind (keys.map (fun k => (k, f k))) k0 = some (f k0) := by
  induction keys with
  | nil => cases hk
  | cons a rest ih =>
    by_cases h : k0 = a
    · subst h
      simp [mapFind]
    · rcases List.mem_cons.mp hk with h2 | h2
      · exact absurd h2 h
      · simp [mapFind, h, ih h2]

theorem load_saved_items (l : List (String × LEntry)) :
    ∀ (acc : List (String × LEntry)) (b : Bool),
    (∀ k ∈ l.map Prod.fst, k ∉ acc.map Prod.fst) →
    (l.map Prod.fst).Nodup →
    (∀ k ∈ l.map Prod.fst, k ≠ "chat_id") →
    List.foldl loadItem (acc, b)
        (l.map (fun p => Json.obj [(p.1, Json.obj (saveEntryFields p.2))]))
      = (acc ++ l.map (fun p => (p.1, pruneL p.2)), b) := by
  induction l with
  | nil => intro acc b _ _ _; simp
  | cons p rest ih =>
    intro acc b hdisj hnd hcid
    obtain ⟨k, e⟩ := p
    have hk : k ≠ "chat_id" := hcid k (by simp)
    have hk' : ¬("chat_id" = k) := fun hh => hk hh.symm
    have hacc : k ∉ acc.map Prod.fst := hdisj k (by simp)
    simp only [List.map_cons, List.nodup_cons] at hnd
    have hbeq : ("chat_id" == k) = false := by simp [hk']
    have hstep : loadItem (acc, b) (Json.obj [(k, Json.obj (saveEntryFields e))])
        = (acc ++ [(k, pruneL e)], b) := by
      simp [loadItem, Json.isObjLike, jFields, jGet, jAttr, jGet_sef_deleted, loadVal_save,
        List.contains, List.elem, hk', hbeq, mapSet_not_mem acc k (pruneL e) hacc]
    have hdisj' : ∀ k2 ∈ rest.map Prod.fst, k2 ∉ (acc ++ [(k, pruneL e)]).map Prod.fst := by
      intro k2 hk2
      simp only [List.map_append, List.mem_append]
      push_neg
      refine ⟨hdisj k2 (by simp [hk2]), ?_⟩
      simp only [List.map_cons, List.map_nil, List.mem_cons, List.not_mem_nil, or_false]
      intro hkk
      exact hnd.1 (hkk ▸ hk2)
    rw [List.map_cons, List.foldl_cons, hstep]
    rw [ih (acc ++ [(k, pruneL e)]) b hdisj' hnd.2 (fun k2 hk2 => hcid k2 (by simp [hk2]))]
    simp

/-! ## Claim theorems -/

/-- C10: the "size-mismatch" failure branch of `editAlbum` is unreachable from
the reconciliation loop: no reconciliation outcome ever carries the reason
"size-mismatch", because `editAlbum` is only invoked when the stored
`message_ids` count equals the effective image count. -/
theorem claim_C10 (chatId : String) (e : Entry) (gw : Gateway) (ts : String)
    (cb : String → String) (dirty : Bool) :
    (reconcileChat chatId e gw ts cb dirty).res.reason ≠ some "size-mismatch" := by
  simp only [reconcileChat]
  split
  · simp
  split
  · simp
  rename_i img heq
  split
  · simp
  split
  · -- send path
    split
    · split <;> rcases sendAlbumM_reason gw.send with h1 | h1 <;> simp [h1]
    · split <;> rcases sendPhotoM_reason gw.send with h1 | h1 | h1 <;> simp [h1]
  · -- edit path
    rename_i hEdit
    split
    · rename_i hAlb
      have h1 : isEditB e img = true := by
        revert hEdit; cases isEditB e img <;> simp
      have hlen : img.list.length = (e.message_ids.getD []).length := by
        simp only [isEditB, baseEditB, hAlb, if_true, Bool.and_eq_true, beq_iff_eq] at h1
        exact h1.1.2.symm
      have h2 := (editAlbumM_of_len cb img.list
        (withTimestamp (e.caption.getD DEFAULT_CAPTION) ts) (e.message_ids.getD [])
        gw.albumItem hlen).2
      simp [h2]
    · split <;> rcases editPhotoM_reason gw.edit gw.recovery (e.message_id.getD 0) with h1 | h1 | h1 <;>
        simp [h1]

/-- C9: for every chat with a truthy `image_url`, unless the outcome is
"unregistered" (chat deleted), the reconciliation pass writes the effective
caption back into the stored record — in particular a chat with no stored
caption override ends the pass with the process default caption stored and
the map marked dirty, so "caption absent" never survives a pass. -/
theorem claim_C9 (chatId : String) (e : Entry) (gw : Gateway) (ts : String)
    (cb : String → String) (dirty : Bool) (img : ImgVal)
    (h0 : chatId ≠ "") (h1 : e.image_url = some img) (h2 : img.truthy = true) :
    (reconcileChat chatId e gw ts cb dirty).res.reason = some "unregistered" ∨
    ∃ e', (reconcileChat chatId e gw ts cb dirty).entry = some e' ∧
      e'.caption = some (e.caption.getD DEFAULT_CAPTION) ∧
      (e.caption = none → (reconcileChat chatId e gw ts cb dirty).dirty = true) := by
  obtain ⟨mid, mids, iu, cap, w, th⟩ := e
  have h1' : iu = some img := h1
  subst h1'
  simp only [reconcileChat]
  rw [if_neg h0, if_neg (by simp [h2])]
  split
  · -- send path
    split
    · -- album send
      split
      · rename_i hg
        left
        simp only [Bool.and_eq_true, beq_iff_eq] at hg
        exact hg.2
      · right
        refine ⟨_, rfl, ?_, ?_⟩
        · refine (caption_bookkeep _ cap img ?_).1
          split
          · exact setMessageIds_caption _ _ _
          · rfl
        · intro hn
          refine (caption_bookkeep _ cap img ?_).2 hn
          split
          · exact setMessageIds_caption _ _ _
          · rfl
    · -- single send
      split
      · rename_i hg
        left
        simp only [Bool.and_eq_true, beq_iff_eq] at hg
        exact hg.2
      · right
        refine ⟨_, rfl, ?_, ?_⟩
        · refine (caption_bookkeep _ cap img ?_).1
          split
          · exact setMessageId_caption _ _ _
          · rfl
        · intro hn
          refine (caption_bookkeep _ cap img ?_).2 hn
          split
          · exact setMessageId_caption _ _ _
          · rfl
  · -- edit path
    split
    · -- album edit
      right
      refine ⟨_, rfl, ?_, ?_⟩
      · exact (caption_bookkeep ((⟨⟨mid, mids, some img, cap, w, th⟩, dirty⟩ : Entry × Bool)) cap img rfl).1
      · exact fun hn => (caption_bookkeep ((⟨⟨mid, mids, some img, cap, w, th⟩, dirty⟩ : Entry × Bool)) cap img rfl).2 hn
    · -- single edit
      split
      · rename_i hg
        left
        simp only [Bool.and_eq_true, beq_iff_eq] at hg
        exact hg.2
      · right
        refine ⟨_, rfl, ?_, ?_⟩
        · refine (caption_bookkeep _ cap img ?_).1
          split
          · exact setMessageId_caption _ _ _
          · rfl
        · intro hn
          refine (caption_bookkeep _ cap img ?_).2 hn
          split
          · exact setMessageId_caption _ _ _
          · rfl

/-- C2 counterexample: `sendAlbum` classifies a 403 response whose description
does not contain "not a member" as authoritative removal (non-failing
"unregistered") instead of a hard failure, so the claimed "exactly when the
description contains 'not a member'" rule fails for send-album. -/
theorem claim_C2_counterexample :
    (sendAlbumM (some jBlocked403)).reason = some "unregistered"
    ∧ (sendAlbumM (some jBlocked403)).removed = true
    ∧ (sendAlbumM (some jBlocked403)).ok = true
    ∧ hasNotAMember jBlocked403.description = false := by
  refine ⟨rfl, rfl, rfl, ?_⟩
  decide

/-- C2 (amended): for send-single and edit-single a gateway failure is
classified as authoritative removal exactly when the code is 403 and the
description contains "not a member" case-insensitively (a 403 without that
substring being a hard failure), while for send-album any failure with code
403 is classified as removal regardless of description; on that
classification the outcome is the non-failing "unregistered" reason, and the
reconciliation engine deletes the chat's record and marks the map dirty. -/
theorem claim_C2_amended :
    (∀ j : TgJson,
       ((sendPhotoM (some j)).removed = true ↔
         (j.ok = false ∧ j.error_code = some 403 ∧ hasNotAMember j.description = true))
       ∧ (j.ok = false → j.error_code = some 403 → hasNotAMember j.description = true →
           sendPhotoM (some j) = { ok := true, reason := some "unregistered", removed := true })
       ∧ (j.ok = false → j.error_code = some 403 → hasNotAMember j.description = false →
           sendPhotoM (some j) = { ok := false }))
    ∧ (∀ (j : TgJson) (rec : Option TgJson) (mid : Int),
       (j.ok = false → j.error_code = some 403 → hasNotAMember j.description = true →
           editPhotoM (some j) rec mid
             = { ok := true, reason := some "unregistered", removed := true })
       ∧ (j.ok = false → j.error_code = some 403 → hasNotAMember j.description = false →
           editPhotoM (some j) rec mid = { ok := false }))
    ∧ (∀ j : TgJson,
       ((sendAlbumM (some j)).removed = true ↔ (j.ok = false ∧ j.error_code = some 403))
       ∧ (j.ok = false → j.error_code = some 403 →
           sendAlbumM (some j) = { ok := true, reason := some "unregistered", removed := true }))
    ∧ (∀ (chatId : String) (e : Entry) (gw : Gateway) (ts : String)
        (cb : String → String) (dirty : Bool),
        (reconcileChat chatId e gw ts cb dirty).res.reason = some "unregistered" →
          (reconcileChat chatId e gw ts cb dirty).entry = none ∧
          (reconcileChat chatId e gw ts cb dirty).dirty = true) := by
  refine ⟨fun j => ⟨sendPhotoM_removed_iff j, ?_, ?_⟩,
    fun j rec mid => ⟨?_, ?_⟩, fun j => ⟨sendAlbumM_removed_iff j, ?_⟩,
    fun chatId e gw ts cb dirty => reconcileChat_unreg chatId e gw ts cb dirty⟩
  · intro hok hec hnam; simp [sendPhotoM, hok, hec, hnam]
  · intro hok hec hnam; simp [sendPhotoM, hok, hec, hnam]
  · intro hok hec hnam; simp [editPhotoM, hok, hec, hnam]
  · intro hok hec hnam; simp [editPhotoM, hok, hec, hnam]
  · intro hok hec; simp [sendAlbumM, hok, hec]

/-- Witness for C2 (amended): the spec's example "not a member" response
yields the non-failing "unregistered" outcome for the single-photo send. -/
theorem claim_C2_witness :
    sendPhotoM (some jNotMember403)
      = { ok := true, reason := some "unregistered", removed := true } :=
  ((claim_C2_amended.1 jNotMember403).2.1) rfl rfl (by decide)

/-- C3: a 400-class edit failure matching neither "message is not modified"
nor "TOPIC_CLOSED" makes `editPhoto` best-effort delete the old stored
message, fall through to a fresh single send, and return that send's result
flagged `replaced`; and when the replacement send succeeds, the
reconciliation loop stores the newly returned message id in place of the old
one. -/
theorem claim_C3 :
    (∀ (j : TgJson) (rec : Option TgJson) (mid : Int),
      j.ok = false → j.error_code = some 400 →
      descContains j.description "message is not modified" = false →
      descContains j.description "TOPIC_CLOSED" = false →
      editPhotoM (some j) rec mid
        = { sendPhotoM rec with replaced := true, deletes := mid :: (sendPhotoM rec).deletes })
    ∧ (∀ (chatId : String) (e : Entry) (gw : Gateway) (ts : String) (cb : String → String)
        (dirty : Bool) (img : ImgVal) (n : Int) (j jr : TgJson) (m : Int),
        chatId ≠ "" → e.image_url = some img → img.truthy = true → img.isAlbum = false →
        e.message_id = some n → n ≠ 0 → e.message_ids = none →
        gw.edit = some j → j.ok = false → j.error_code = some 400 →
        descContains j.description "message is not modified" = false →
        descContains j.description "TOPIC_CLOSED" = false →
        gw.recovery = some jr → jr.ok = true → jr.result_ids.head? = some m → m ≠ 0 →
        (reconcileChat chatId e gw ts cb dirty).res.replaced = true ∧
        (reconcileChat chatId e gw ts cb dirty).res.ok = true ∧
        (reconcileChat chatId e gw ts cb dirty).res.message_id = some m ∧
        (reconcileChat chatId e gw ts cb dirty).res.deletes = [n] ∧
        ∃ e', (reconcileChat chatId e gw ts cb dirty).entry = some e' ∧
          e'.message_id = some m ∧ e'.message_ids = none) := by
  constructor
  · intro j rec mid hok hec h1 h2
    exact editPhotoM_400 j rec mid hok hec h1 h2
  · intro chatId e gw ts cb dirty img n j jr m h0 h1 h2 hAlb hmid hn hmids hge hok hec hd1 hd2 hgr hjok hjm hm
    obtain ⟨mid0, mids0, iu, cap, w, th⟩ := e
    have h1' : iu = some img := h1
    have hmid' : mid0 = some n := hmid
    have hmids' : mids0 = none := hmids
    subst h1' hmid' hmids'
    have hr : editPhotoM gw.edit gw.recovery ((some n).getD 0)
        = { ok := true, message_id := some m, pins := [jr.result_ids.head?],
            replaced := true, deletes := [n] } := by
      simp only [Option.getD_some]
      rw [hge, editPhotoM_400 j gw.recovery n hok hec hd1 hd2, hgr, sendPhotoM_ok_eq jr hjok]
      simp [hjm]
    have hEdit : isEditB ⟨some n, none, some (ImgVal.one ""), cap, w, th⟩ img = true := by
      simp [isEditB, baseEditB, forceSendB, hAlb, idTruthy, hn]
    simp only [reconcileChat]
    rw [if_neg h0, if_neg (by simp [h2])]
    rw [if_neg (by simp [isEditB, baseEditB, forceSendB, hAlb, idTruthy, hn])]
    rw [if_neg (by simp [hAlb])]
    rw [hr]
    rw [if_neg (by simp)]
    simp only [Option.getD_some]
    have hset := setMessageId_fields ⟨some n, none, some img, cap, w, th⟩ dirty m hm
    constructor
    · simp
    constructor
    · simp
    constructor
    · simp
    constructor
    · simp [transDeletes, hAlb, idTruthy, hn]
    rw [if_pos (show ((true : Bool) && true && idTruthy (some m)) = true by simp [idTruthy, hm])]
    refine ⟨_, rfl, ?_, ?_⟩
    · rw [updateStored_message_id]
      exact hset.1
    · rw [updateStored_message_ids]
      exact hset.2

/-- Witness for C3: a concrete "message to edit not found" edit failure whose
replacement send returns message id 77. -/
theorem claim_C3_witness :
    (reconcileChat "1" { message_id := some 5, image_url := some (ImgVal.one "u") } { edit := some jNotFound400, recovery := some jSent77 } "t" id false).res.replaced = true ∧
    (reconcileChat "1" { message_id := some 5, image_url := some (ImgVal.one "u") } { edit := some jNotFound400, recovery := some jSent77 } "t" id false).res.ok = true ∧
    (reconcileChat "1" { message_id := some 5, image_url := some (ImgVal.one "u") } { edit := some jNotFound400, recovery := some jSent77 } "t" id false).res.message_id = some 77 ∧
    (reconcileChat "1" { message_id := some 5, image_url := some (ImgVal.one "u") } { edit := some jNotFound400, recovery := some jSent77 } "t" id false).res.deletes = [5] ∧
    ∃ e', (reconcileChat "1" { message_id := some 5, image_url := some (ImgVal.one "u") } { edit := some jNotFound400, recovery := some jSent77 } "t" id false).entry = some e' ∧
      e'.message_id = some 77 ∧ e'.message_ids = none :=
  claim_C3.2 "1" { message_id := some 5, image_url := some (ImgVal.one "u") }
    { edit := some jNotFound400, recovery := some jSent77 } "t" id false (ImgVal.one "u")
    5 jNotFound400 jSent77 77 (by decide) rfl (by decide) rfl rfl (by decide) rfl rfl rfl rfl
    (by decide) (by decide) rfl rfl rfl (by decide)

/-- Witness for C9: a chat with an image and no caption override ends a pass
(here a failed send, since no gateway response is available) with the default
caption stored and the map dirty. -/
theorem claim_C9_witness :
    (reconcileChat "1" { image_url := some (ImgVal.one "u") } {} "t" id false).res.reason
        = some "unregistered" ∨
      ∃ e', (reconcileChat "1" { image_url := some (ImgVal.one "u") } {} "t" id false).entry
          = some e' ∧
        e'.caption = some DEFAULT_CAPTION ∧
        ((none : Option String) = none →
          (reconcileChat "1" { image_url := some (ImgVal.one "u") } {} "t" id false).dirty = true) :=
  claim_C9 "1" { image_url := some (ImgVal.one "u") } {} "t" id false (ImgVal.one "u")
    (by decide) rfl (by decide)

/-- C1: for every chat with a truthy `image_url`, the reconciliation engine
follows the six-row decision table exactly — single id with album mode
deletes the single and sends an album; album ids with single mode deletes
them all and sends a single; album ids with mismatched count deletes them
all and sends an album; album ids with matching count edits the album in
place; single id with single mode edits the single; nothing stored sends new
— transition cases always send, and after a successful send following a mode
switch the stored ids match the mode used, with no residual id of the other
representation. -/
theorem claim_C1 (chatId : String) (e : Entry) (gw : Gateway) (ts : String)
    (cb : String → String) (dirty : Bool) (img : ImgVal)
    (h0 : chatId ≠ "") (h1 : e.image_url = some img) (h2 : img.truthy = true) :
    (∀ n, e.message_id = some n → n ≠ 0 → e.message_ids = none → img.isAlbum = true →
      (reconcileChat chatId e gw ts cb dirty).deletes = [n] ∧
      (reconcileChat chatId e gw ts cb dirty).res = sendAlbumM gw.send)
    ∧ (∀ ids, e.message_ids = some ids → e.message_id = none → img.isAlbum = false →
      (reconcileChat chatId e gw ts cb dirty).deletes = ids ∧
      (reconcileChat chatId e gw ts cb dirty).res = sendPhotoM gw.send)
    ∧ (∀ ids, e.message_ids = some ids → e.message_id = none → img.isAlbum = true →
      ids.length ≠ img.list.length →
      (reconcileChat chatId e gw ts cb dirty).deletes = ids ∧
      (reconcileChat chatId e gw ts cb dirty).res = sendAlbumM gw.send)
    ∧ (∀ ids, e.message_ids = some ids → e.message_id = none → img.isAlbum = true →
      ids.length = img.list.length →
      (reconcileChat chatId e gw ts cb dirty).deletes = [] ∧
      (reconcileChat chatId e gw ts cb dirty).res
        = editAlbumM cb img.list (withTimestamp (e.caption.getD DEFAULT_CAPTION) ts) ids gw.albumItem)
    ∧ (∀ n, e.message_id = some n → n ≠ 0 → e.message_ids = none → img.isAlbum = false →
      (reconcileChat chatId e gw ts cb dirty).deletes = [] ∧
      (reconcileChat chatId e gw ts cb dirty).res = editPhotoM gw.edit gw.recovery n)
    ∧ (e.message_id = none → e.message_ids = none →
      (reconcileChat chatId e gw ts cb dirty).deletes = [] ∧
      (reconcileChat chatId e gw ts cb dirty).res
        = (if img.isAlbum then sendAlbumM gw.send else sendPhotoM gw.send))
    ∧ (∀ n j, e.message_id = some n → n ≠ 0 → e.message_ids = none → img.isAlbum = true →
      gw.send = some j → j.ok = true → j.result_ids ≠ [] →
      ∃ e', (reconcileChat chatId e gw ts cb dirty).entry = some e' ∧
        e'.message_id = none ∧ e'.message_ids = some j.result_ids)
    ∧ (∀ ids j m, e.message_ids = some ids → e.message_id = none → img.isAlbum = false →
      gw.send = some j → j.ok = true → j.result_ids.head? = some m → m ≠ 0 →
      ∃ e', (reconcileChat chatId e gw ts cb dirty).entry = some e' ∧
        e'.message_ids = none ∧ e'.message_id = some m) := by
  obtain ⟨mid, mids, iu, cap, w, th⟩ := e
  have hiu : iu = some img := h1
  subst hiu
  refine ⟨?_, ?_, ?_, ?_, ?_, ?_, ?_, ?_⟩
  · -- row 1: single stored, album mode
    intro n hmid hn hmids hAlb
    have hmid' : mid = some n := hmid
    have hmids' : mids = none := hmids
    subst hmid' hmids'
    simp only [reconcileChat]
    rw [if_neg h0, if_neg (by simp [h2]),
      if_pos (show isEditB ⟨some n, none, some img, cap, w, th⟩ img = false by
        simp [isEditB, baseEditB, hAlb]),
      if_pos hAlb]
    constructor
    · split <;> simp [transDeletes, hAlb, idTruthy, hn]
    · split <;> rfl
  · -- row 2: album stored, single mode
    intro ids hmids hmid hAlb
    have hmid' : mid = none := hmid
    have hmids' : mids = some ids := hmids
    subst hmid' hmids'
    simp only [reconcileChat]
    rw [if_neg h0, if_neg (by simp [h2]),
      if_pos (show isEditB ⟨none, some ids, some img, cap, w, th⟩ img = false by
        simp [isEditB, baseEditB, hAlb, idTruthy]),
      if_neg (by simp [hAlb])]
    constructor
    · split <;> simp [transDeletes, hAlb, idTruthy]
    · split <;> rfl
  · -- row 3: album stored, album mode, count mismatch
    intro ids hmids hmid hAlb hlen
    have hmid' : mid = none := hmid
    have hmids' : mids = some ids := hmids
    subst hmid' hmids'
    simp only [reconcileChat]
    rw [if_neg h0, if_neg (by simp [h2]),
      if_pos (show isEditB ⟨none, some ids, some img, cap, w, th⟩ img = false by
        simp [isEditB, baseEditB, hAlb, hlen]),
      if_pos hAlb]
    constructor
    · split <;> simp [transDeletes, hAlb, idTruthy, hlen]
    · split <;> rfl
  · -- row 4: album stored, album mode, count match
    intro ids hmids hmid hAlb hlen
    have hmid' : mid = none := hmid
    have hmids' : mids = some ids := hmids
    subst hmid' hmids'
    simp only [reconcileChat]
    rw [if_neg h0, if_neg (by simp [h2]),
      if_neg (show ¬isEditB ⟨none, some ids, some img, cap, w, th⟩ img = false by
        simp [isEditB, baseEditB, forceSendB, hAlb, hlen, idTruthy]),
      if_pos hAlb]
    constructor
    · simp [transDeletes, hAlb, idTruthy, hlen]
    · simp
  · -- row 5: single stored, single mode
    intro n hmid hn hmids hAlb
    have hmid' : mid = some n := hmid
    have hmids' : mids = none := hmids
    subst hmid' hmids'
    simp only [reconcileChat]
    rw [if_neg h0, if_neg (by simp [h2]),
      if_neg (show ¬isEditB ⟨some n, none, some img, cap, w, th⟩ img = false by
        simp [isEditB, baseEditB, forceSendB, hAlb, idTruthy, hn]),
      if_neg (by simp [hAlb])]
    constructor
    · split <;> simp [transDeletes, hAlb, idTruthy]
    · split <;> rfl
  · -- row 6: nothing stored
    intro hmid hmids
    have hmid' : mid = none := hmid
    have hmids' : mids = none := hmids
    subst hmid' hmids'
    simp only [reconcileChat]
    rw [if_neg h0, if_neg (by simp [h2]),
      if_pos (show isEditB ⟨none, none, some img, cap, w, th⟩ img = false by
        simp [isEditB, baseEditB, idTruthy])]
    by_cases hA : img.isAlbum = true
    · rw [if_pos hA, if_pos hA]
      constructor
      · split <;> simp [transDeletes, hA, idTruthy]
      · split <;> rfl
    · rw [if_neg hA, if_neg hA]
      constructor
      · split <;> simp [transDeletes, idTruthy]
      · split <;> rfl
  · -- post-state: single→album switch, successful album send
    intro n j hmid hn hmids hAlb hgs hjok hne
    have hmid' : mid = some n := hmid
    have hmids' : mids = none := hmids
    subst hmid' hmids'
    simp only [reconcileChat]
    rw [if_neg h0, if_neg (by simp [h2]),
      if_pos (show isEditB ⟨some n, none, some img, cap, w, th⟩ img = false by
        simp [isEditB, baseEditB, hAlb]),
      if_pos hAlb, hgs]
    rw [show sendAlbumM (some j)
        = { ok := true, message_ids := some j.result_ids,
            pins := match j.result_ids with | [] => [] | m :: _ => [some m] } by
      simp [sendAlbumM, hjok]]
    rw [if_neg (by simp)]
    rw [if_pos (by simp)]
    have hne' : ([] : List Int) ≠ j.result_ids := fun hh => hne hh.symm
    refine ⟨_, rfl, ?_, ?_⟩
    · rw [updateStored_message_id]
      simp [setMessageIds, idTruthy, hn, hne']
    · rw [updateStored_message_ids]
      simp [setMessageIds, idTruthy, hn, hne']
  · -- post-state: album→single switch, successful single send
    intro ids j m hmids hmid hAlb hgs hjok hjm hm
    have hmid' : mid = none := hmid
    have hmids' : mids = some ids := hmids
    subst hmid' hmids'
    simp only [reconcileChat]
    rw [if_neg h0, if_neg (by simp [h2]),
      if_pos (show isEditB ⟨none, some ids, some img, cap, w, th⟩ img = false by
        simp [isEditB, baseEditB, hAlb, idTruthy]),
      if_neg (by simp [hAlb]), hgs, sendPhotoM_ok_eq j hjok]
    rw [if_neg (by simp)]
    rw [if_pos (by simp [hjm, idTruthy, hm])]
    simp only [hjm, Option.getD_some]
    have hset := setMessageId_fields ⟨none, some ids, some img, cap, w, th⟩ dirty m hm
    refine ⟨_, rfl, ?_, ?_⟩
    · rw [updateStored_message_ids]
      exact hset.2
    · rw [updateStored_message_id]
      exact hset.1

/-- Witness for C1: a chat with a stored single id 5 switching to a
two-image album deletes message 5, sends the album, and stores the returned
ids with no residual single id. -/
theorem claim_C1_witness :
    (reconcileChat "1" { message_id := some 5, image_url := some (ImgVal.many ["a", "b"]) } { send := some jAlbum1011 } "t" id false).deletes = [5] ∧
    (reconcileChat "1" { message_id := some 5, image_url := some (ImgVal.many ["a", "b"]) } { send := some jAlbum1011 } "t" id false).res = sendAlbumM (some jAlbum1011) ∧
    ∃ e', (reconcileChat "1" { message_id := some 5, image_url := some (ImgVal.many ["a", "b"]) } { send := some jAlbum1011 } "t" id false).entry = some e' ∧
      e'.message_id = none ∧ e'.message_ids = some [10, 11] := by
  refine ⟨?_, ?_, ?_⟩
  · exact ((claim_C1 "1" { message_id := some 5, image_url := some (ImgVal.many ["a", "b"]) }
      { send := some jAlbum1011 } "t" id false (ImgVal.many ["a", "b"]) (by decide) rfl
      (by decide)).1 5 rfl (by decide) rfl rfl).1
  · exact ((claim_C1 "1" { message_id := some 5, image_url := some (ImgVal.many ["a", "b"]) }
      { send := some jAlbum1011 } "t" id false (ImgVal.many ["a", "b"]) (by decide) rfl
      (by decide)).1 5 rfl (by decide) rfl rfl).2
  · exact (claim_C1 "1" { message_id := some 5, image_url := some (ImgVal.many ["a", "b"]) }
      { send := some jAlbum1011 } "t" id false (ImgVal.many ["a", "b"]) (by decide) rfl
      (by decide)).2.2.2.2.2.2.1 5 jAlbum1011 rfl (by decide) rfl rfl rfl rfl (by decide)

theorem editAlbumItems_spec (cb : String → String) (cap : String)
    (rsp : Nat → Option TgJson) :
    ∀ (l : List (Int × String)) (i : Nat),
    (editAlbumItems cb cap rsp i l).1 = (l.enumFrom i).map (albumCallSpec cb cap)
    ∧ (editAlbumItems cb cap rsp i l).2
        = (l.enumFrom i).filterMap (fun p => albumItemOutcome (rsp p.1)) := by
  intro l
  induction l with
  | nil => intro i; simp [editAlbumItems]
  | cons x xs ih =>
    intro i
    obtain ⟨mid, img⟩ := x
    constructor
    · simp only [editAlbumItems, List.enumFrom, List.map_cons, (ih (i + 1)).1]
      rfl
    · simp only [editAlbumItems, List.enumFrom, List.filterMap_cons, (ih (i + 1)).2]
      cases hr : rsp i with
      | none => simp [albumItemOutcome]
      | some j =>
        simp only [albumItemOutcome]
        split
        · split <;> simp
        · simp

/-- C4: `editAlbum` with matching counts issues one edit call per
(stored id, image) pair in order with the caption only on the first, treats a
per-item "message is not modified" as success for that item, records other
per-item failures without aborting, returns ok with no failure reason once
the loop completes, re-pins the first stored id regardless of outcomes, and
the reconciliation loop leaves the stored `message_ids` unchanged. -/
theorem claim_C4 :
    (∀ (cb : String → String) (images : List String) (cap : String) (existing : List Int)
       (itemRsp : Nat → Option TgJson),
      images.length = existing.length →
      (editAlbumM cb images cap existing itemRsp).ok = true ∧
      (editAlbumM cb images cap existing itemRsp).reason = none ∧
      (editAlbumM cb images cap existing itemRsp).calls
        = (existing.zip images).enum.map (albumCallSpec cb cap) ∧
      (editAlbumM cb images cap existing itemRsp).item_results
        = (existing.zip images).enum.filterMap (fun p => albumItemOutcome (itemRsp p.1)) ∧
      (editAlbumM cb images cap existing itemRsp).pins
        = (match existing with | [] => [] | m :: _ => [some m]))
    ∧ (∀ (chatId : String) (e : Entry) (gw : Gateway) (ts : String) (cb : String → String)
        (dirty : Bool) (img : ImgVal) (ids : List Int),
        chatId ≠ "" → e.image_url = some img → img.truthy = true → img.isAlbum = true →
        e.message_ids = some ids → e.message_id = none → ids.length = img.list.length →
        (reconcileChat chatId e gw ts cb dirty).res
          = editAlbumM cb img.list (withTimestamp (e.caption.getD DEFAULT_CAPTION) ts) ids
              gw.albumItem ∧
        ∃ e', (reconcileChat chatId e gw ts cb dirty).entry = some e' ∧
          e'.message_ids = some ids) := by
  constructor
  · intro cb images cap existing itemRsp hlen
    have hspec := editAlbumItems_spec cb cap itemRsp (existing.zip images) 0
    have hcond : ¬(images.length ≠ existing.length) := fun hh => hh hlen
    refine ⟨?_, ?_, ?_, ?_, ?_⟩ <;> simp only [editAlbumM] <;> rw [if_neg hcond]
    all_goals first
    | exact hspec.1
    | exact hspec.2
  · intro chatId e gw ts cb dirty img ids h0 h1 h2 hAlb hmids hmid hlen
    obtain ⟨mid, mids, iu, cap, w, th⟩ := e
    have hiu : iu = some img := h1
    have hmid' : mid = none := hmid
    have hmids' : mids = some ids := hmids
    subst hiu hmid' hmids'
    simp only [reconcileChat]
    rw [if_neg h0, if_neg (by simp [h2]),
      if_neg (show ¬isEditB ⟨none, some ids, some img, cap, w, th⟩ img = false by
        simp [isEditB, baseEditB, forceSendB, hAlb, hlen, idTruthy]),
      if_pos hAlb]
    refine ⟨by simp, _, rfl, ?_⟩
    rw [updateStored_message_ids]

/-- Witness for C4: the spec's own example — chat "-100222" with a stored
two-id album [10, 11] and an unchanged two-image configuration issues the two
edit calls and keeps `message_ids` unchanged. -/
theorem claim_C4_witness :
    ((editAlbumM id ["u1.png", "u2.png"] "c" [10, 11] (fun _ => none)).ok = true ∧
     (editAlbumM id ["u1.png", "u2.png"] "c" [10, 11] (fun _ => none)).reason = none ∧
     (editAlbumM id ["u1.png", "u2.png"] "c" [10, 11] (fun _ => none)).calls
       = (([10, 11].zip ["u1.png", "u2.png"]).enum.map (albumCallSpec id "c")) ∧
     (editAlbumM id ["u1.png", "u2.png"] "c" [10, 11] (fun _ => none)).item_results
       = (([10, 11].zip ["u1.png", "u2.png"]).enum.filterMap
           (fun p => albumItemOutcome ((fun _ => none : Nat → Option TgJson) p.1))) ∧
     (editAlbumM id ["u1.png", "u2.png"] "c" [10, 11] (fun _ => none)).pins
       = (match ([10, 11] : List Int) with | [] => [] | m :: _ => [some m]))
    ∧ ((reconcileChat "-100222" { message_ids := some [10, 11], image_url := some (ImgVal.many ["u1.png", "u2.png"]) } {} "t" id false).res
        = editAlbumM id ["u1.png", "u2.png"] (withTimestamp DEFAULT_CAPTION "t") [10, 11]
            ({} : Gateway).albumItem ∧
      ∃ e', (reconcileChat "-100222" { message_ids := some [10, 11], image_url := some (ImgVal.many ["u1.png", "u2.png"]) } {} "t" id false).entry = some e' ∧
        e'.message_ids = some [10, 11]) :=
  ⟨claim_C4.1 id ["u1.png", "u2.png"] "c" [10, 11] (fun _ => none) rfl,
   claim_C4.2 "-100222" { message_ids := some [10, 11], image_url := some (ImgVal.many ["u1.png", "u2.png"]) }
     {} "t" id false (ImgVal.many ["u1.png", "u2.png"]) [10, 11]
     (by decide) rfl (by decide) (by decide) rfl rfl rfl⟩

/-- C5 counterexample: an argument that is empty after trimming, sent from a
chat not yet in the map, produces the error reply but does mutate the map —
the handler creates an empty record for the chat before validating the
argument (the dirty flag stays unset). -/
theorem claim_C5_counterexample :
    (handleCaptionCommand [] false "c" " " none).reply = CapReply.emptyError ∧
    (handleCaptionCommand [] false "c" " " none).map ≠ [] ∧
    (handleCaptionCommand [] false "c" " " none).map = [("c", {})] ∧
    (handleCaptionCommand [] false "c" " " none).dirty = false := by
  refine ⟨rfl, ?_, rfl, rfl⟩
  decide

/-- C5 (amended): a `-default` argument (case-insensitive) removes the chat's
stored caption override, marking the map dirty only if an override existed;
an argument empty after trimming produces an error reply, leaves the dirty
flag unchanged, and mutates the map at most by creating an empty record for
a previously unknown chat (an already-known chat's map is untouched); any
other argument stores the trimmed text verbatim as the chat's caption
override and marks the map dirty. -/
theorem claim_C5_amended :
    (∀ (m : MMap) (dirty : Bool) (chatId : String) (raw : String) (msgId : Option Int),
      strLower (jsTrim raw) = "-default" →
      (handleCaptionCommand m dirty chatId raw msgId).reply = CapReply.resetOk
      ∧ (∀ e0, mapFind (handleCaptionCommand m dirty chatId raw msgId).map chatId = some e0 →
          e0.caption = none)
      ∧ (∀ e, mapFind m chatId = some e → e.caption = none →
          (handleCaptionCommand m dirty chatId raw msgId).map = m ∧
          (handleCaptionCommand m dirty chatId raw msgId).dirty = dirty)
      ∧ (∀ e s, mapFind m chatId = some e → e.caption = some s →
          (handleCaptionCommand m dirty chatId raw msgId).map
            = mapSet m chatId { e with caption := none } ∧
          (handleCaptionCommand m dirty chatId raw msgId).dirty = true))
    ∧ (∀ (m : MMap) (dirty : Bool) (chatId : String) (raw : String) (msgId : Option Int),
      strLower (jsTrim raw) ≠ "-default" → jsTrim raw = "" →
      (handleCaptionCommand m dirty chatId raw msgId).reply = CapReply.emptyError
      ∧ (handleCaptionCommand m dirty chatId raw msgId).dirty = dirty
      ∧ (∀ e, mapFind m chatId = some e →
          (handleCaptionCommand m dirty chatId raw msgId).map = m)
      ∧ (mapFind m chatId = none →
          (handleCaptionCommand m dirty chatId raw msgId).map = mapSet m chatId {}))
    ∧ (∀ (m : MMap) (dirty : Bool) (chatId : String) (raw : String) (msgId : Option Int),
      strLower (jsTrim raw) ≠ "-default" → jsTrim raw ≠ "" →
      (handleCaptionCommand m dirty chatId raw msgId).reply = CapReply.savedOk
      ∧ (handleCaptionCommand m dirty chatId raw msgId).dirty = true
      ∧ ∃ e', mapFind (handleCaptionCommand m dirty chatId raw msgId).map chatId = some e' ∧
          e'.caption = some (jsTrim raw)) := by
  refine ⟨?_, ?_, ?_⟩
  · intro m dirty chatId raw msgId hdef
    refine ⟨?_, ?_, ?_, ?_⟩
    · simp [handleCaptionCommand, hdef]
    · intro e0 hfind
      cases hm : mapFind m chatId with
      | some e1 =>
        cases hc : e1.caption with
        | none =>
          simp [handleCaptionCommand, hdef, hm, hc] at hfind
          rw [← hfind]
          exact hc
        | some s =>
          simp [handleCaptionCommand, hdef, hm, hc, mapFind_mapSet_self] at hfind
          rw [← hfind]
      | none =>
        simp [handleCaptionCommand, hdef, hm, mapFind_mapSet_self] at hfind
        rw [← hfind]
    · intro e hm hc
      constructor <;> simp [handleCaptionCommand, hdef, hm, hc]
    · intro e s hm hc
      constructor <;> simp [handleCaptionCommand, hdef, hm, hc]
  · intro m dirty chatId raw msgId hdef hempty
    rw [hempty] at hdef
    refine ⟨?_, ?_, ?_, ?_⟩
    · simp [handleCaptionCommand, hdef, hempty]
    · simp [handleCaptionCommand, hdef, hempty]
    · intro e hm
      simp [handleCaptionCommand, hdef, hempty, hm]
    · intro hm
      simp [handleCaptionCommand, hdef, hempty, hm]
  · intro m dirty chatId raw msgId hdef hempty
    refine ⟨?_, ?_, ?_⟩
    · simp [handleCaptionCommand, hdef, hempty]
    · simp [handleCaptionCommand, hdef, hempty]
    · simp only [handleCaptionCommand]
      rw [if_neg hdef, if_neg hempty]
      exact ⟨_, mapFind_mapSet_self _ _ _, rfl⟩

/-- Witness for C5 (amended): `/graphenko_caption  hello ` on an unknown chat
stores the trimmed caption and marks the map dirty. -/
theorem claim_C5_witness :
    (handleCaptionCommand [] false "c" " hello " none).reply = CapReply.savedOk ∧
    (handleCaptionCommand [] false "c" " hello " none).dirty = true ∧
    ∃ e', mapFind (handleCaptionCommand [] false "c" " hello " none).map "c" = some e' ∧
      e'.caption = some (jsTrim " hello ") :=
  claim_C5_amended.2.2 [] false "c" " hello " none (by decide) (by decide)

/-- C6: an image-command URL failing any of the three validation checks (base
path prefix, case-insensitive `.png` suffix, URL parse) yields the usage
error and no map mutation; a URL passing validation and remote verification
is stored as the chat's `image_url` (map dirty), and a pending truthy
welcome message id is cleared exactly when its remote deletion succeeds. -/
theorem claim_C6 :
    (∀ (parses : String → Bool) (verifyOk delOk : Bool) (m : MMap) (dirty : Bool)
       (chatId url : String) (msgId : Option Int),
      (strStarts url OUTAGE_IMAGES_BASE = false ∨ strEnds (strLower url) ".png" = false ∨
        parses url = false) →
      isValidOutageImageUrl parses url = false ∧
      (handleImageCommand parses verifyOk delOk m dirty chatId url msgId).map = m ∧
      (handleImageCommand parses verifyOk delOk m dirty chatId url msgId).dirty = dirty ∧
      (handleImageCommand parses verifyOk delOk m dirty chatId url msgId).reply
        = ImgReply.usageError)
    ∧ (∀ (parses : String → Bool) (delOk : Bool) (m : MMap) (dirty : Bool)
        (chatId url : String) (msgId : Option Int),
      isValidOutageImageUrl parses url = true →
      (handleImageCommand parses false delOk m dirty chatId url msgId).map = m ∧
      (handleImageCommand parses false delOk m dirty chatId url msgId).dirty = dirty ∧
      (handleImageCommand parses false delOk m dirty chatId url msgId).reply
        = ImgReply.fetchError)
    ∧ (∀ (parses : String → Bool) (delOk : Bool) (m : MMap) (dirty : Bool)
        (chatId url : String) (msgId : Option Int),
      isValidOutageImageUrl parses url = true →
      (handleImageCommand parses true delOk m dirty chatId url msgId).reply = ImgReply.savedOk ∧
      (handleImageCommand parses true delOk m dirty chatId url msgId).dirty = true ∧
      ∃ e', mapFind (handleImageCommand parses true delOk m dirty chatId url msgId).map chatId
          = some e' ∧
        e'.image_url = some (ImgVal.one url) ∧
        (∀ e w, mapFind m chatId = some e → e.welcome_message_id = some w → w ≠ 0 →
          (handleImageCommand parses true delOk m dirty chatId url msgId).deletedWelcome = [w] ∧
          (delOk = true → e'.welcome_message_id = none) ∧
          (delOk = false → e'.welcome_message_id = some w)) ∧
        (∀ e, mapFind m chatId = some e → e.welcome_message_id = none →
          e'.welcome_message_id = none) ∧
        (mapFind m chatId = none → e'.welcome_message_id = none)) := by
  refine ⟨?_, ?_, ?_⟩
  · intro parses verifyOk delOk m dirty chatId url msgId hbad
    have hval : isValidOutageImageUrl parses url = false := by
      rcases hbad with h | h | h <;> simp [isValidOutageImageUrl, h]
    exact ⟨hval, by simp [handleImageCommand, hval], by simp [handleImageCommand, hval],
      by simp [handleImageCommand, hval]⟩
  · intro parses delOk m dirty chatId url msgId hval
    exact ⟨by simp [handleImageCommand, hval], by simp [handleImageCommand, hval],
      by simp [handleImageCommand, hval]⟩
  · intro parses delOk m dirty chatId url msgId hval
    refine ⟨by simp [handleImageCommand, hval], by simp [handleImageCommand, hval], ?_⟩
    cases hm : mapFind m chatId with
    | some e1 =>
      cases hw : e1.welcome_message_id with
      | some w =>
        by_cases hw0 : w = 0
        · have hout : handleImageCommand parses true delOk m dirty chatId url msgId
              = { map := mapSet m chatId { e1 with image_url := some (ImgVal.one url) },
                  dirty := true, reply := ImgReply.savedOk, deletedWelcome := [],
                  deletedCmd := delCmd msgId } := by
            simp [handleImageCommand, hval, hm, hw, idTruthy, hw0]
          refine ⟨{ e1 with image_url := some (ImgVal.one url) }, ?_, rfl, ?_, ?_, ?_⟩
          · rw [hout]
            exact mapFind_mapSet_self _ _ _
          · intro e w2 hm2 hw2 hw20
            injection hm2 with hh
            subst hh
            rw [hw] at hw2
            injection hw2 with hh2
            subst hh2
            exact absurd hw0 hw20
          · intro e hm2 hw2
            injection hm2 with hh
            subst hh
            rw [hw2] at hw
            cases hw
          · intro hm2
            cases hm2
        · by_cases hdel : delOk = true
          · have hout : handleImageCommand parses true delOk m dirty chatId url msgId
                = { map := mapSet (mapSet m chatId { e1 with image_url := some (ImgVal.one url) })
                        chatId { e1 with image_url := some (ImgVal.one url), welcome_message_id := none },
                    dirty := true, reply := ImgReply.savedOk, deletedWelcome := [w],
                    deletedCmd := delCmd msgId } := by
              simp [handleImageCommand, hval, hm, hw, idTruthy, hw0, hdel]
            refine ⟨{ e1 with image_url := some (ImgVal.one url), welcome_message_id := none },
              ?_, rfl, ?_, ?_, ?_⟩
            · rw [hout]
              exact mapFind_mapSet_self _ _ _
            · intro e w2 hm2 hw2 hw20
              injection hm2 with hh
              subst hh
              rw [hw] at hw2
              injection hw2 with hh2
              subst hh2
              exact ⟨by rw [hout], fun _ => rfl, fun hdf => absurd hdel (by simp [hdf])⟩
            · intro e hm2 hw2
              rfl
            · intro hm2
              cases hm2
          · have hout : handleImageCommand parses true delOk m dirty chatId url msgId
                = { map := mapSet m chatId { e1 with image_url := some (ImgVal.one url) },
                    dirty := true, reply := ImgReply.savedOk, deletedWelcome := [w],
                    deletedCmd := delCmd msgId } := by
              simp [handleImageCommand, hval, hm, hw, idTruthy, hw0, hdel]
            refine ⟨{ e1 with image_url := some (ImgVal.one url) }, ?_, rfl, ?_, ?_, ?_⟩
            · rw [hout]
              exact mapFind_mapSet_self _ _ _
            · intro e w2 hm2 hw2 hw20
              injection hm2 with hh
              subst hh
              rw [hw] at hw2
              injection hw2 with hh2
              subst hh2
              exact ⟨by rw [hout], fun hdt => absurd hdt hdel, fun _ => hw⟩
            · intro e hm2 hw2
              injection hm2 with hh
              subst hh
              rw [hw2] at hw
              cases hw
            · intro hm2
              cases hm2
      | none =>
        have hout : handleImageCommand parses true delOk m dirty chatId url msgId
            = { map := mapSet m chatId { e1 with image_url := some (ImgVal.one url) },
                dirty := true, reply := ImgReply.savedOk, deletedWelcome := [],
                deletedCmd := delCmd msgId } := by
          simp [handleImageCommand, hval, hm, hw, idTruthy]
        refine ⟨{ e1 with image_url := some (ImgVal.one url) }, ?_, rfl, ?_, ?_, ?_⟩
        · rw [hout]
          exact mapFind_mapSet_self _ _ _
        · intro e w2 hm2 hw2 hw20
          injection hm2 with hh
          subst hh
          rw [hw2] at hw
          cases hw
        · intro e hm2 hw2
          exact hw
        · intro hm2
          cases hm2
    | none =>
      have hout : handleImageCommand parses true delOk m dirty chatId url msgId
          = { map := mapSet (mapSet m chatId {}) chatId
                  { ({} : Entry) with image_url := some (ImgVal.one url) },
              dirty := true, reply := ImgReply.savedOk, deletedWelcome := [],
              deletedCmd := delCmd msgId } := by
        simp [handleImageCommand, hval, hm, mapFind_mapSet_self, idTruthy]
      refine ⟨{ ({} : Entry) with image_url := some (ImgVal.one url) }, ?_, rfl, ?_, ?_, ?_⟩
      · rw [hout]
        exact mapFind_mapSet_self _ _ _
      · intro e w2 hm2 hw2 hw20
        cases hm2
      · intro e hm2 hw2
        cases hm2
      · intro hm2
        rfl

/-- Witness for C6: a verified valid URL on a chat holding welcome message 9
stores the image, marks dirty, and clears the welcome id after its deletion. -/
theorem claim_C6_witness :
    (handleImageCommand (fun _ => true) true true [("c", { welcome_message_id := some 9 })] false "c" "https://raw.githubusercontent.com/Baskerville42/outage-data-ua/refs/heads/main/images/kyiv/gpv.png" none).reply = ImgReply.savedOk ∧
    (handleImageCommand (fun _ => true) true true [("c", { welcome_message_id := some 9 })] false "c" "https://raw.githubusercontent.com/Baskerville42/outage-data-ua/refs/heads/main/images/kyiv/gpv.png" none).dirty = true ∧
    ∃ e', mapFind (handleImageCommand (fun _ => true) true true [("c", { welcome_message_id := some 9 })] false "c" "https://raw.githubusercontent.com/Baskerville42/outage-data-ua/refs/heads/main/images/kyiv/gpv.png" none).map "c" = some e' ∧
      e'.image_url = some (ImgVal.one "https://raw.githubusercontent.com/Baskerville42/outage-data-ua/refs/heads/main/images/kyiv/gpv.png") ∧
      (∀ e w, mapFind [("c", ({ welcome_message_id := some 9 } : Entry))] "c" = some e →
        e.welcome_message_id = some w → w ≠ 0 →
        (handleImageCommand (fun _ => true) true true [("c", { welcome_message_id := some 9 })] false "c" "https://raw.githubusercontent.com/Baskerville42/outage-data-ua/refs/heads/main/images/kyiv/gpv.png" none).deletedWelcome = [w] ∧
        (true = true → e'.welcome_message_id = none) ∧
        (true = false → e'.welcome_message_id = some w)) ∧
      (∀ e, mapFind [("c", ({ welcome_message_id := some 9 } : Entry))] "c" = some e →
        e.welcome_message_id = none → e'.welcome_message_id = none) ∧
      (mapFind [("c", ({ welcome_message_id := some 9 } : Entry))] "c" = none →
        e'.welcome_message_id = none) :=
  claim_C6.2.2 (fun _ => true) true [("c", { welcome_message_id := some 9 })] false "c"
    "https://raw.githubusercontent.com/Baskerville42/outage-data-ua/refs/heads/main/images/kyiv/gpv.png"
    none (by decide)

/-- C8: a membership event for a channel/supergroup/group with new status in
left/kicked/restricted deletes the chat's record when present (marking
dirty); a status in administrator/creator/member creates an empty record —
setting neither `image_url` nor `caption` — exactly when absent, appending the
chat id to the newly-registered list exactly on creation; and the sequence
[member or administrator, then left] leaves the map without the chat id. -/
theorem claim_C8 :
    (∀ (m : MMap) (dirty : Bool) (cid : Int) (ctype status : String),
      (m.map Prod.fst).Nodup →
      (ctype = "channel" ∨ ctype = "supergroup" ∨ ctype = "group") →
      (status = "left" ∨ status = "kicked" ∨ status = "restricted") →
      mapFind (registerFromUpdates m dirty [⟨some ⟨some ⟨cid, ctype⟩, some status⟩⟩]).map
        (toString cid) = none ∧
      (registerFromUpdates m dirty [⟨some ⟨some ⟨cid, ctype⟩, some status⟩⟩]).newly = [] ∧
      (∀ e, mapFind m (toString cid) = some e →
        (registerFromUpdates m dirty [⟨some ⟨some ⟨cid, ctype⟩, some status⟩⟩]).map
            = mapErase m (toString cid) ∧
        (registerFromUpdates m dirty [⟨some ⟨some ⟨cid, ctype⟩, some status⟩⟩]).dirty = true) ∧
      (mapFind m (toString cid) = none →
        (registerFromUpdates m dirty [⟨some ⟨some ⟨cid, ctype⟩, some status⟩⟩]).map = m ∧
        (registerFromUpdates m dirty [⟨some ⟨some ⟨cid, ctype⟩, some status⟩⟩]).dirty = dirty))
    ∧ (∀ (m : MMap) (dirty : Bool) (cid : Int) (ctype status : String),
      (ctype = "channel" ∨ ctype = "supergroup" ∨ ctype = "group") →
      (status = "administrator" ∨ status = "creator" ∨ status = "member") →
      ((mapFind m (toString cid) = none →
        (registerFromUpdates m dirty [⟨some ⟨some ⟨cid, ctype⟩, some status⟩⟩]).map
            = mapSet m (toString cid) {} ∧
        mapFind (registerFromUpdates m dirty [⟨some ⟨some ⟨cid, ctype⟩, some status⟩⟩]).map
            (toString cid) = some {} ∧
        (registerFromUpdates m dirty [⟨some ⟨some ⟨cid, ctype⟩, some status⟩⟩]).newly
            = [toString cid] ∧
        (registerFromUpdates m dirty [⟨some ⟨some ⟨cid, ctype⟩, some status⟩⟩]).dirty = true)
      ∧ (∀ e, mapFind m (toString cid) = some e →
          (registerFromUpdates m dirty [⟨some ⟨some ⟨cid, ctype⟩, some status⟩⟩]).map = m ∧
          (registerFromUpdates m dirty [⟨some ⟨some ⟨cid, ctype⟩, some status⟩⟩]).newly = [] ∧
          (registerFromUpdates m dirty [⟨some ⟨some ⟨cid, ctype⟩, some status⟩⟩]).dirty = dirty))
      ∧ ({} : Entry).image_url = none ∧ ({} : Entry).caption = none)
    ∧ (∀ (m : MMap) (dirty : Bool) (cid : Int) (ctype s1 : String),
      (m.map Prod.fst).Nodup →
      (ctype = "channel" ∨ ctype = "supergroup" ∨ ctype = "group") →
      (s1 = "member" ∨ s1 = "administrator") →
      mapFind (registerFromUpdates m dirty
        [⟨some ⟨some ⟨cid, ctype⟩, some s1⟩⟩, ⟨some ⟨some ⟨cid, ctype⟩, some "left"⟩⟩]).map
        (toString cid) = none) := by
  refine ⟨?_, ?_, ?_⟩
  · intro m dirty cid ctype status hnd hct hst
    have hnotct : ¬(ctype ≠ "channel" ∧ ctype ≠ "supergroup" ∧ ctype ≠ "group") := by
      rcases hct with rfl | rfl | rfl <;> simp
    have hin : statusIn ["left", "kicked", "restricted"] (some status) = true := by
      rcases hst with rfl | rfl | rfl <;> decide
    cases hfind : mapFind m (toString cid) with
    | some e =>
      have hout : registerFromUpdates m dirty [⟨some ⟨some ⟨cid, ctype⟩, some status⟩⟩]
          = { map := mapErase m (toString cid), dirty := true, newly := [] } := by
        simp [registerFromUpdates, registerOne, hnotct, hin, hfind]
      refine ⟨?_, ?_, ?_, ?_⟩
      · rw [hout]
        exact mapErase_find_self _ _ hnd
      · rw [hout]
      · intro e2 h2
        rw [hout]
        exact ⟨rfl, rfl⟩
      · intro h2
        simp at h2
    | none =>
      have hout : registerFromUpdates m dirty [⟨some ⟨some ⟨cid, ctype⟩, some status⟩⟩]
          = { map := m, dirty := dirty, newly := [] } := by
        simp [registerFromUpdates, registerOne, hnotct, hin, hfind]
      refine ⟨?_, ?_, ?_, ?_⟩
      · rw [hout]
        exact hfind
      · rw [hout]
      · intro e2 h2
        simp at h2
      · intro h2
        rw [hout]
        exact ⟨rfl, rfl⟩
  · intro m dirty cid ctype status hct hst
    have hnotct : ¬(ctype ≠ "channel" ∧ ctype ≠ "supergroup" ∧ ctype ≠ "group") := by
      rcases hct with rfl | rfl | rfl <;> simp
    have hinL : statusIn ["left", "kicked", "restricted"] (some status) = false := by
      rcases hst with rfl | rfl | rfl <;> decide
    have hinA : statusIn ["administrator", "creator", "member"] (some status) = true := by
      rcases hst with rfl | rfl | rfl <;> decide
    refine ⟨⟨?_, ?_⟩, rfl, rfl⟩
    · intro hfind
      have hout : registerFromUpdates m dirty [⟨some ⟨some ⟨cid, ctype⟩, some status⟩⟩]
          = { map := mapSet m (toString cid) {}, dirty := true, newly := [toString cid] } := by
        simp [registerFromUpdates, registerOne, hnotct, hinL, hinA, hfind]
      rw [hout]
      exact ⟨rfl, mapFind_mapSet_self _ _ _, rfl, rfl⟩
    · intro e hfind
      have hout : registerFromUpdates m dirty [⟨some ⟨some ⟨cid, ctype⟩, some status⟩⟩]
          = { map := m, dirty := dirty, newly := [] } := by
        simp [registerFromUpdates, registerOne, hnotct, hinL, hinA, hfind]
      rw [hout]
      exact ⟨rfl, rfl, rfl⟩
  · intro m dirty cid ctype s1 hnd hct hs1
    have hnotct : ¬(ctype ≠ "channel" ∧ ctype ≠ "supergroup" ∧ ctype ≠ "group") := by
      rcases hct with rfl | rfl | rfl <;> simp
    have hinL : statusIn ["left", "kicked", "restricted"] (some s1) = false := by
      rcases hs1 with rfl | rfl <;> decide
    have hinA : statusIn ["administrator", "creator", "member"] (some s1) = true := by
      rcases hs1 with rfl | rfl <;> decide
    have hin2 : statusIn ["left", "kicked", "restricted"] (some "left") = true := by decide
    cases hfind : mapFind m (toString cid) with
    | none =>
      have h1 : registerOne ⟨m, dirty, []⟩ ⟨some ⟨some ⟨cid, ctype⟩, some s1⟩⟩
          = ⟨mapSet m (toString cid) {}, dirty, [toString cid]⟩ := by
        simp [registerOne, hnotct, hinL, hinA, hfind]
      have h2 : registerOne ⟨mapSet m (toString cid) {}, dirty, [toString cid]⟩
            ⟨some ⟨some ⟨cid, ctype⟩, some "left"⟩⟩
          = ⟨mapErase (mapSet m (toString cid) {}) (toString cid), true, [toString cid]⟩ := by
        simp [registerOne, hnotct, hin2, mapFind_mapSet_self]
      simp only [registerFromUpdates, List.foldl, h1, h2]
      rw [if_pos (by simp)]
      exact mapErase_find_self _ _ (mapSet_nodup m _ _ hnd)
    | some e =>
      have h1 : registerOne ⟨m, dirty, []⟩ ⟨some ⟨some ⟨cid, ctype⟩, some s1⟩⟩
          = ⟨m, dirty, []⟩ := by
        simp [registerOne, hnotct, hinL, hinA, hfind]
      have h2 : registerOne ⟨m, dirty, []⟩ ⟨some ⟨some ⟨cid, ctype⟩, some "left"⟩⟩
          = ⟨mapErase m (toString cid), true, []⟩ := by
        simp [registerOne, hnotct, hin2, hfind]
      simp only [registerFromUpdates, List.foldl, h1, h2]
      rw [if_neg (by simp)]
      exact mapErase_find_self _ _ hnd

/-- Witness for C8: the sequence [member, left] for chat -100111 leaves the
map without that chat id. -/
theorem claim_C8_witness :
    mapFind (registerFromUpdates [] false
      [⟨some ⟨some ⟨-100111, "channel"⟩, some "member"⟩⟩,
       ⟨some ⟨some ⟨-100111, "channel"⟩, some "left"⟩⟩]).map (toString (-100111 : Int)) = none :=
  claim_C8.2.2 [] false (-100111) "channel" "member" (by decide) (Or.inl rfl) (Or.inl rfl)

/-- Witness for C10 at a concrete chat with nothing configured. -/
theorem claim_C10_witness :
    (reconcileChat "1" {} {} "t" id false).res.reason ≠ some "size-mismatch" :=
  claim_C10 "1" {} {} "t" id false

/-- C7: loading a saved chat-map file and saving it again with no intervening
mutation produces byte-identical file content, and the monitor-related fields
of every record survive the load/save round-trip verbatim (the host field
under the same truthiness guard the storage layer applies on both sides). -/
theorem claim_C7 (m : List (String × LEntry))
    (hnd : (m.map Prod.fst).Nodup)
    (hcid : ∀ k ∈ m.map Prod.fst, k ≠ "chat_id") :
    saveFile ((loadMessageMapFromFile (saveMessageMapToFile m)).1) = saveFile m
    ∧ (∀ k e, mapFind m k = some e →
        ∃ e', mapFind ((loadMessageMapFromFile (saveMessageMapToFile m)).1) k = some e' ∧
          e'.monitor_port = e.monitor_port ∧ e'.monitor_interval_sec = e.monitor_interval_sec ∧
          e'.monitor_last_status = e.monitor_last_status ∧
          e'.monitor_last_change = e.monitor_last_change ∧
          e'.monitor_enabled = e.monitor_enabled ∧
          ((∀ v, e.monitor_host = some v → v.truthy = true) →
            e'.monitor_host = e.monitor_host)) := by
  have hperm : List.Perm (sortKeys (m.map Prod.fst)) (m.map Prod.fst) :=
    List.perm_insertionSort _ _
  have hkeysnd : (sortKeys (m.map Prod.fst)).Nodup := hperm.nodup_iff.mpr hnd
  have hkeyscid : ∀ k ∈ sortKeys (m.map Prod.fst), k ≠ "chat_id" :=
    fun k hk => hcid k (hperm.mem_iff.mp hk)
  have hsave : saveMessageMapToFile m
      = Json.arr (((sortKeys (m.map Prod.fst)).map
            (fun k => (k, (mapFind m k).getD {}))).map
          (fun p => Json.obj [(p.1, Json.obj (saveEntryFields p.2))])) := by
    simp only [saveMessageMapToFile, List.map_map]
    rfl
  have hlfst : (((sortKeys (m.map Prod.fst)).map
        (fun k => (k, (mapFind m k).getD ({} : LEntry)))).map Prod.fst)
      = sortKeys (m.map Prod.fst) := by
    rw [List.map_map]
    exact List.map_id _
  have hload : (loadMessageMapFromFile (saveMessageMapToFile m)).1
      = (sortKeys (m.map Prod.fst)).map
          (fun k => (k, pruneL ((mapFind m k).getD {}))) := by
    rw [hsave]
    simp only [loadMessageMapFromFile]
    rw [load_saved_items _ [] false (by simp) (by rw [hlfst]; exact hkeysnd)
      (by rw [hlfst]; exact hkeyscid)]
    rw [List.nil_append, List.map_map]
    rfl
  constructor
  · have hjson : saveMessageMapToFile ((loadMessageMapFromFile (saveMessageMapToFile m)).1)
        = saveMessageMapToFile m := by
      rw [hload]
      simp only [saveMessageMapToFile]
      have hfst : (((sortKeys (m.map Prod.fst)).map
            (fun k => (k, pruneL ((mapFind m k).getD {})))).map Prod.fst)
          = sortKeys (m.map Prod.fst) := by
        rw [List.map_map]
        exact List.map_id _
      rw [hfst]
      have hsorted : (sortKeys (m.map Prod.fst)).Sorted (· ≤ ·) := by
        simp only [sortKeys]
        exact List.sorted_insertionSort _ _
      rw [show sortKeys (sortKeys (m.map Prod.fst)) = sortKeys (m.map Prod.fst) from
        hsorted.insertionSort_eq]
      apply congrArg
      apply List.map_congr_left
      intro k hk
      rw [mapFind_map_of_mem _ _ k hk]
      simp only [Option.getD_some]
      rw [saveEntryFields_prune]
    simp only [saveFile, hjson]
  · intro k e hfind
    have hkmem : k ∈ sortKeys (m.map Prod.fst) :=
      hperm.mem_iff.mpr (mapFind_some_mem m k e hfind)
    refine ⟨pruneL e, ?_, rfl, rfl, rfl, rfl, rfl, ?_⟩
    · rw [hload, mapFind_map_of_mem _ _ k hkmem, hfind]
      rfl
    · intro htr
      simp only [pruneL]
      cases hh : e.monitor_host with
      | none => simp [optTruthy]
      | some v => simp [optTruthy, htr v hh]

/-- Witness for C7 at a concrete one-chat map carrying monitor fields. -/
theorem claim_C7_witness :
    saveFile ((loadMessageMapFromFile (saveMessageMapToFile mSample)).1) = saveFile mSample
    ∧ (∀ k e, mapFind mSample k = some e →
        ∃ e', mapFind ((loadMessageMapFromFile (saveMessageMapToFile mSample)).1) k = some e' ∧
          e'.monitor_port = e.monitor_port ∧ e'.monitor_interval_sec = e.monitor_interval_sec ∧
          e'.monitor_last_status = e.monitor_last_status ∧
          e'.monitor_last_change = e.monitor_last_change ∧
          e'.monitor_enabled = e.monitor_enabled ∧
          ((∀ v, e.monitor_host = some v → v.truthy = true) →
            e'.monitor_host = e.monitor_host)) :=
  claim_C7 mSample (by decide) (by decide)

end DtekBot
